import Mathlib

/-!
# Verification of the `e7f3/frontend-config` configuration library

Shallow embedding of the repository's config-builder and build-performance
monitoring code, together with proofs about it.

Modelling conventions:
* JavaScript numbers are modelled as `ℚ` (exact arithmetic).
* JavaScript `undefined` / absent optional values are modelled with `Option`.
* Plain JavaScript objects that are merged by spreading are modelled as
  association lists (`List (String × JVal)`) in which the *last* binding of a
  key wins, so `{...a, ...b}` is list concatenation `a ++ b`.
* Presentation-only string fields (file paths written to disk, `analysis`
  strings containing `toFixed` number formatting, console logging) are not
  modelled; no claim refers to them.
-/

/-- JavaScript `Math.round`: round half toward positive infinity. -/
def jsRound (q : ℚ) : ℤ := ⌊q + 1/2⌋

/-- JavaScript `array.slice(-n)`: the at most `n` last elements of the array. -/
def jsSliceLast (n : ℕ) (l : List α) : List α := l.drop (l.length - n)

/-! ## Data model of `src/webpack/types/performance.ts` -/

/-- Severity of a webpack performance hint. -/
inductive HintSeverity where
  | warning
  | error
  | info
deriving DecidableEq, Repr

/-- `PerformanceHint` (only the fields read by the embedded functions). -/
structure PerformanceHint where
  severity : HintSeverity
  message : String
deriving DecidableEq, Repr

/-- `BundleAnalysis` (only `totalSize` is read by the embedded functions). -/
structure BundleAnalysis where
  totalSize : ℚ
deriving DecidableEq, Repr

/-- `BuildPerformanceMetrics` (the fields read by the embedded functions).
The TypeScript interface declares `bundleAnalysis` as mandatory, but the code
consistently guards it with truthiness checks, so it is modelled as `Option`. -/
structure BuildPerformanceMetrics where
  totalBuildTime : ℚ
  peakMemoryUsage : ℚ
  moduleCount : ℚ
  bundleAnalysis : Option BundleAnalysis
  performanceHints : List PerformanceHint
deriving DecidableEq, Repr

/-- `PerformanceBudget`: every budget field is optional. -/
structure PerformanceBudget where
  bundleSize : Option ℚ := none
  gzippedSize : Option ℚ := none
  buildTime : Option ℚ := none
  memoryUsage : Option ℚ := none
  moduleCount : Option ℚ := none
  assetCount : Option ℚ := none
  chunkCount : Option ℚ := none
  performanceScore : Option ℚ := none
deriving DecidableEq, Repr

/-- Health-score letter grades. -/
inductive Grade where
  | A
  | B
  | C
  | D
  | E
  | F
deriving DecidableEq, Repr

/-- Health-score status values. -/
inductive HealthStatus where
  | excellent
  | good
  | fair
  | poor
  | critical
deriving DecidableEq, Repr

/-- `BuildHealthScore`. -/
structure BuildHealthScore where
  overallScore : ℚ
  buildTimeScore : ℚ
  bundleSizeScore : ℚ
  performanceScore : ℚ
  cacheScore : ℚ
  memoryScore : ℚ
  grade : Grade
  status : HealthStatus
  recommendations : List String
deriving DecidableEq, Repr

/-- Regression type tags (`'build-time' | 'bundle-size' | 'memory' | 'performance'`). -/
inductive RegressionType where
  | buildTime
  | bundleSize
  | memory
  | performance
deriving DecidableEq, Repr

/-- Regression severity (`'minor' | 'major' | 'critical'`). -/
inductive RegressionSeverity where
  | minor
  | major
  | critical
deriving DecidableEq, Repr

/-- A JavaScript `number` that can be the result of dividing by zero: a finite
value, an infinity, or NaN.  Needed because `checkRegression` divides by the
baseline value, and a zero baseline is reachable for the bundle-size check
(histories whose entries lack a bundle analysis average to a 0 baseline). -/
inductive JsNum where
  | num : ℚ → JsNum
  | posInf
  | negInf
  | nan
deriving DecidableEq, Repr

/-- The IEEE comparison `x > t` for a possibly non-finite `x` and a finite
`t`: `Infinity > t` is true, `-Infinity > t` and `NaN > t` are false. -/
def JsNum.gtQ : JsNum → ℚ → Bool
  | JsNum.num q, t => q > t
  | JsNum.posInf, _ => true
  | JsNum.negInf, _ => false
  | JsNum.nan, _ => false

/-- The JS expression `((currentValue - baselineValue) / baselineValue) * 100`
over IEEE numbers with finite operands: dividing a positive (negative) value
by zero gives `Infinity` (`-Infinity`), `0 / 0` gives `NaN`, and multiplying
by the positive constant 100 preserves all three. -/
def jsPercentageChange (currentValue baselineValue : ℚ) : JsNum :=
  if baselineValue = 0 then
    if currentValue > 0 then JsNum.posInf
    else if currentValue < 0 then JsNum.negInf
    else JsNum.nan
  else JsNum.num ((currentValue - baselineValue) / baselineValue * 100)

/-- `PerformanceRegression`. The `analysis` field (a template string using
`toFixed(1)` formatting) is presentation-only and not modelled; the
`percentageChange` number can be `Infinity` (zero baseline), so it is a
`JsNum`. -/
structure PerformanceRegression where
  type : RegressionType
  currentValue : ℚ
  previousValue : ℚ
  percentageChange : JsNum
  severity : RegressionSeverity
  isBlocking : Bool
  recommendations : List String
deriving DecidableEq, Repr

/-- Trend direction values. -/
inductive TrendDirection where
  | improving
  | declining
  | stable
deriving DecidableEq, Repr

/-- Commit metadata carried by `HistoricalPerformanceData`. -/
structure CommitData where
  hash : String
  message : String
  author : String
  timestamp : String
  branch : String
deriving DecidableEq, Repr

/-- The `trends` record carried by `HistoricalPerformanceData`. -/
structure TrendsData where
  direction : TrendDirection
  changePercentage : ℚ
  confidence : ℚ
deriving DecidableEq, Repr

/-- `HistoricalPerformanceData`. -/
structure HistoricalPerformanceData where
  buildId : String
  commit : CommitData
  metrics : BuildPerformanceMetrics
  healthScore : BuildHealthScore
  trends : TrendsData
deriving DecidableEq, Repr

/-! ## `BuildHealthScoring` (`src/webpack/utils/buildHealthScoring.ts`) -/

/-- The `BuildHealthScoring` class: its only state is the merged budgets. -/
structure BuildHealthScoring where
  budgets : PerformanceBudget
deriving DecidableEq, Repr

namespace BuildHealthScoring

/-- The constructor: each default is applied with `||` (so an explicit `0`
budget survives the spread `...budgets` that follows the defaults). -/
def new (budgets : PerformanceBudget) : BuildHealthScoring :=
  ⟨{ bundleSize := budgets.bundleSize.orElse fun _ => some (1024 * 1024)
     gzippedSize := budgets.gzippedSize.orElse fun _ => some (300 * 1024)
     buildTime := budgets.buildTime.orElse fun _ => some 30000
     memoryUsage := budgets.memoryUsage.orElse fun _ => some 1024
     moduleCount := budgets.moduleCount.orElse fun _ => some 1000
     assetCount := budgets.assetCount.orElse fun _ => some 100
     chunkCount := budgets.chunkCount.orElse fun _ => some 20
     performanceScore := budgets.performanceScore.orElse fun _ => some 80 }⟩

/-- `calculateBuildTimeScore`: `if (!budget) return 100` is the JS falsiness
check, i.e. the budget is absent or `0`. -/
def calculateBuildTimeScore (self : BuildHealthScoring) (buildTime : ℚ) : ℚ :=
  match self.budgets.buildTime with
  | none => 100
  | some budget =>
    if budget = 0 then 100
    else
      let q := buildTime / budget
      if q ≤ 0.5 then 100
      else if q ≤ 0.75 then 90
      else if q ≤ 1.0 then 75
      else if q ≤ 1.5 then 60
      else if q ≤ 2.0 then 45
      else 30

/-- `calculateBundleSizeScore`. -/
def calculateBundleSizeScore (self : BuildHealthScoring)
    (bundleAnalysis : Option BundleAnalysis) : ℚ :=
  match bundleAnalysis with
  | none => 100
  | some ba =>
    match self.budgets.bundleSize with
    | none => 100
    | some budget =>
      if budget = 0 then 100
      else
        let q := ba.totalSize / budget
        if q ≤ 0.5 then 100
        else if q ≤ 0.75 then 90
        else if q ≤ 1.0 then 75
        else if q ≤ 1.5 then 60
        else if q ≤ 2.0 then 45
        else 30

/-- `calculatePerformanceScore`: deducts 20 points per error hint and 10 per
warning hint, then deducts `min(20, floor(excess / 100) * 5)` when the module
count exceeds its budget, and clamps at 0. -/
def calculatePerformanceScore (self : BuildHealthScoring)
    (metrics : BuildPerformanceMetrics) : ℚ :=
  let score : ℚ := metrics.performanceHints.foldl
    (fun s h =>
      if h.severity = HintSeverity.error then s - 20
      else if h.severity = HintSeverity.warning then s - 10
      else s) 100
  let score : ℚ :=
    match self.budgets.moduleCount with
    | some mc =>
      if metrics.moduleCount > mc then
        score - min 20 ((⌊(metrics.moduleCount - mc) / 100⌋ : ℚ) * 5)
      else score
    | none => score
  max 0 score

/-- `calculateCacheScore`: a ladder on the total build time. -/
def calculateCacheScore (metrics : BuildPerformanceMetrics) : ℚ :=
  let buildTime := metrics.totalBuildTime
  if buildTime < 10000 then 90
  else if buildTime < 20000 then 80
  else if buildTime < 30000 then 70
  else 60

/-- `calculateMemoryScore`: `if (!peakMemoryUsage) return 100` and
`if (!budget) return 100` are JS falsiness checks. -/
def calculateMemoryScore (self : BuildHealthScoring) (peakMemoryUsage : ℚ) : ℚ :=
  if peakMemoryUsage = 0 then 100
  else
    match self.budgets.memoryUsage with
    | none => 100
    | some budget =>
      if budget = 0 then 100
      else
        let q := peakMemoryUsage / budget
        if q ≤ 0.5 then 100
        else if q ≤ 0.75 then 85
        else if q ≤ 1.0 then 70
        else if q ≤ 1.5 then 50
        else 30

/-- `generateGradeAndStatus`. -/
def generateGradeAndStatus (score : ℚ) : Grade × HealthStatus :=
  if score ≥ 90 then (Grade.A, HealthStatus.excellent)
  else if score ≥ 80 then (Grade.B, HealthStatus.good)
  else if score ≥ 70 then (Grade.C, HealthStatus.fair)
  else if score ≥ 60 then (Grade.D, HealthStatus.poor)
  else if score ≥ 50 then (Grade.E, HealthStatus.poor)
  else (Grade.F, HealthStatus.critical)

/-- `generateRecommendations` (the `metrics` member of its argument object is
never read, so only the five scores are passed). -/
def generateRecommendations (buildTimeScore bundleSizeScore performanceScore
    cacheScore memoryScore : ℚ) : List String :=
  (if buildTimeScore < 70 then
    ["Consider optimizing build configuration or reducing dependencies to improve build time"]
   else []) ++
  (if bundleSizeScore < 70 then
    ["Implement code splitting and tree shaking to reduce bundle size"]
   else []) ++
  (if performanceScore < 70 then
    ["Address performance hints and optimize bundle composition"]
   else []) ++
  (if cacheScore < 70 then
    ["Optimize build cache configuration and avoid unnecessary rebuilds"]
   else []) ++
  (if memoryScore < 70 then
    ["Consider increasing memory limits or optimizing memory-intensive operations"]
   else [])

/-- `calculateHealthScore`. -/
def calculateHealthScore (self : BuildHealthScoring)
    (metrics : BuildPerformanceMetrics) : BuildHealthScore :=
  let buildTimeScore := self.calculateBuildTimeScore metrics.totalBuildTime
  let bundleSizeScore := self.calculateBundleSizeScore metrics.bundleAnalysis
  let performanceScore := self.calculatePerformanceScore metrics
  let cacheScore := calculateCacheScore metrics
  let memoryScore := self.calculateMemoryScore metrics.peakMemoryUsage
  let overallScore : ℚ :=
    (jsRound (buildTimeScore * 0.25 + bundleSizeScore * 0.25 +
      performanceScore * 0.2 + cacheScore * 0.15 + memoryScore * 0.15) : ℤ)
  let gs := generateGradeAndStatus overallScore
  { overallScore
    buildTimeScore
    bundleSizeScore
    performanceScore
    cacheScore
    memoryScore
    grade := gs.1
    status := gs.2
    recommendations := generateRecommendations buildTimeScore bundleSizeScore
      performanceScore cacheScore memoryScore }

/-- `getRegressionRecommendations` (the change-percent argument is unused by
the source, as its `_changePercent` name records). -/
def getRegressionRecommendations (t : RegressionType) : List String :=
  match t with
  | RegressionType.buildTime =>
    ["Analyze build process to identify bottlenecks",
     "Consider parallelization or caching improvements",
     "Review and optimize dependency management"]
  | RegressionType.bundleSize =>
    ["Implement code splitting for large dependencies",
     "Review and remove unused dependencies",
     "Consider dynamic imports for non-critical features"]
  | RegressionType.memory =>
    ["Increase Node.js memory limits",
     "Optimize memory-intensive build operations",
     "Consider incremental builds to reduce memory usage"]
  | RegressionType.performance =>
    ["Review build configuration and optimization settings"]

/-- `checkRegression`: reports a regression when the percentage change over
the baseline exceeds the threshold, with IEEE semantics for the division — a
zero baseline with a positive current value yields an `Infinity` percentage
change and hence a critical, blocking regression.  Reads no instance state. -/
def checkRegression (currentValue baselineValue : ℚ) (t : RegressionType)
    (thresholdPercent : ℚ) : Option PerformanceRegression :=
  let percentageChange := jsPercentageChange currentValue baselineValue
  if percentageChange.gtQ thresholdPercent then
    let severity : RegressionSeverity :=
      if percentageChange.gtQ (thresholdPercent * 2) then RegressionSeverity.critical
      else if percentageChange.gtQ (thresholdPercent * 1.5) then RegressionSeverity.major
      else RegressionSeverity.minor
    some { type := t
           currentValue := currentValue
           previousValue := baselineValue
           percentageChange := percentageChange
           severity := severity
           isBlocking := severity = RegressionSeverity.critical
           recommendations := getRegressionRecommendations t }
  else none

/-- `calculateBaseline`: averages of the given historical entries.  The source
returns `{} as BuildPerformanceMetrics` for an empty list and an object with
only three fields otherwise; fields it leaves `undefined` are modelled as `0`,
`none` and `[]` (its caller `detectRegressions` only reads the three averaged
fields, each guarded by a falsiness check that identifies `0` and `undefined`). -/
def calculateBaseline (historicalData : List HistoricalPerformanceData) :
    BuildPerformanceMetrics :=
  if historicalData.length = 0 then
    { totalBuildTime := 0, peakMemoryUsage := 0, moduleCount := 0
      bundleAnalysis := none, performanceHints := [] }
  else
    let n : ℚ := historicalData.length
    let totalBuildTime :=
      (historicalData.foldl (fun sum d => sum + d.metrics.totalBuildTime) 0) / n
    let avgBundleSize :=
      (historicalData.foldl
        (fun sum d => sum + ((d.metrics.bundleAnalysis.map BundleAnalysis.totalSize).getD 0)) 0) / n
    let avgMemory :=
      (historicalData.foldl (fun sum d => sum + d.metrics.peakMemoryUsage) 0) / n
    { totalBuildTime := totalBuildTime
      peakMemoryUsage := avgMemory
      moduleCount := 0
      bundleAnalysis := some { totalSize := avgBundleSize }
      performanceHints := [] }

/-- `detectRegressions`: baseline over the last 10 builds, thresholds 15 / 10 /
20 percent for build time / bundle size / memory.  The guards on the build-time
and memory checks are JS truthiness tests of the baseline numbers; the guard on
the bundle-size check tests object presence.  Reads no instance state. -/
def detectRegressions (currentMetrics : BuildPerformanceMetrics)
    (historicalData : List HistoricalPerformanceData) : List PerformanceRegression :=
  if historicalData.length = 0 then []
  else
    let recentBuilds := jsSliceLast 10 historicalData
    let baseline := calculateBaseline recentBuilds
    let buildTimeRegression :=
      if baseline.totalBuildTime ≠ 0 then
        checkRegression currentMetrics.totalBuildTime baseline.totalBuildTime
          RegressionType.buildTime 15
      else none
    let sizeRegression :=
      match currentMetrics.bundleAnalysis, baseline.bundleAnalysis with
      | some cb, some bb =>
        checkRegression cb.totalSize bb.totalSize RegressionType.bundleSize 10
      | _, _ => none
    let memoryRegression :=
      if baseline.peakMemoryUsage ≠ 0 then
        checkRegression currentMetrics.peakMemoryUsage baseline.peakMemoryUsage
          RegressionType.memory 20
      else none
    buildTimeRegression.toList ++ sizeRegression.toList ++ memoryRegression.toList

end BuildHealthScoring

/-! ## `CIPerformanceMonitoring` (`src/webpack/monitoring/ciPerformanceMonitoring.ts`) -/

/-- The `regressionThresholds` record of `CIPerformanceConfig`. -/
structure RegressionThresholds where
  maxRegressionPercent : ℚ
  failOnRegression : Bool
  blockOnCritical : Bool
deriving DecidableEq, Repr

/-- The `trendAnalysis` record of `CIPerformanceConfig`. -/
structure TrendAnalysisConfig where
  lookbackBuilds : ℚ
  minConfidence : ℚ
deriving DecidableEq, Repr

/-- The `reporting` record of `CIPerformanceConfig`. -/
structure ReportingConfig where
  detailedReports : Bool
  trendCharts : Bool
  enableComparison : Bool
deriving DecidableEq, Repr

/-- `CIPerformanceConfig`. -/
structure CIPerformanceConfig where
  enabled : Bool
  budgets : PerformanceBudget
  regressionThresholds : RegressionThresholds
  trendAnalysis : TrendAnalysisConfig
  reporting : ReportingConfig
deriving DecidableEq, Repr

/-- `Partial<CIPerformanceConfig>`, the constructor argument. -/
structure PartialCIPerformanceConfig where
  enabled : Option Bool := none
  budgets : Option PerformanceBudget := none
  regressionThresholds : Option RegressionThresholds := none
  trendAnalysis : Option TrendAnalysisConfig := none
  reporting : Option ReportingConfig := none
deriving DecidableEq, Repr

namespace CIPerformanceMonitoring

/-- The default budgets object of the `CIPerformanceMonitoring` constructor
(no `chunkCount` entry, unlike the `BuildHealthScoring` defaults). -/
def defaultBudgets : PerformanceBudget :=
  { bundleSize := some (1024 * 1024)
    gzippedSize := some (300 * 1024)
    buildTime := some 30000
    memoryUsage := some 1024
    moduleCount := some 1000
    assetCount := some 100
    performanceScore := some 80 }

/-- The constructor's config merge `{ ...defaults, ...config }`: the spread is
at the top level, so a user-supplied nested record replaces the whole default
record.  (The file-system side effects of the constructor are not modelled.) -/
def mkConfig (config : PartialCIPerformanceConfig) : CIPerformanceConfig :=
  { enabled := config.enabled.getD true
    budgets := config.budgets.getD defaultBudgets
    regressionThresholds := config.regressionThresholds.getD
      { maxRegressionPercent := 15, failOnRegression := true, blockOnCritical := true }
    trendAnalysis := config.trendAnalysis.getD
      { lookbackBuilds := 10, minConfidence := 0.7 }
    reporting := config.reporting.getD
      { detailedReports := true, trendCharts := true, enableComparison := true } }

/-- `shouldAllowDeployment`. -/
def shouldAllowDeployment (config : CIPerformanceConfig)
    (regressions : List PerformanceRegression) (healthScore : BuildHealthScore) : Bool :=
  if (regressions.filter fun r => r.severity = RegressionSeverity.critical).length > 0 ∧
      config.regressionThresholds.blockOnCritical = true then false
  else if healthScore.overallScore < 60 then false
  else if (regressions.filter fun r => r.isBlocking).length > 0 ∧
      config.regressionThresholds.failOnRegression = true then false
  else true

/-- One entry of `violations` in `enforcePerformanceBudgets`. -/
inductive ViolationSeverity where
  | warning
  | error
deriving DecidableEq, Repr

/-- A budget violation reported by `enforcePerformanceBudgets`. -/
structure BudgetViolation where
  metric : String
  actual : ℚ
  budget : ℚ
  severity : ViolationSeverity
  recommendation : String
deriving DecidableEq, Repr

/-- The record returned by `enforcePerformanceBudgets`. -/
structure EnforceResult where
  passed : Bool
  violations : List BudgetViolation
deriving DecidableEq, Repr

/-- The bundle-size check of `enforcePerformanceBudgets`: guarded by the JS
truthiness of `metrics.bundleAnalysis` and `budgets.bundleSize`. -/
def bundleSizeViolations (config : CIPerformanceConfig)
    (metrics : BuildPerformanceMetrics) : List BudgetViolation :=
  match metrics.bundleAnalysis, config.budgets.bundleSize with
  | some ba, some bs =>
    if bs ≠ 0 ∧ ba.totalSize > bs then
      [{ metric := "bundle-size", actual := ba.totalSize, budget := bs
         severity := if ba.totalSize > bs * 1.2 then ViolationSeverity.error
           else ViolationSeverity.warning
         recommendation := "Implement code splitting or optimize bundle size" }]
    else []
  | _, _ => []

/-- The build-time check of `enforcePerformanceBudgets`. -/
def buildTimeViolations (config : CIPerformanceConfig)
    (metrics : BuildPerformanceMetrics) : List BudgetViolation :=
  match config.budgets.buildTime with
  | some bt =>
    if bt ≠ 0 ∧ metrics.totalBuildTime > bt then
      [{ metric := "build-time", actual := metrics.totalBuildTime, budget := bt
         severity := if metrics.totalBuildTime > bt * 1.5 then ViolationSeverity.error
           else ViolationSeverity.warning
         recommendation := "Optimize build configuration or reduce dependencies" }]
    else []
  | none => []

/-- The memory-usage check of `enforcePerformanceBudgets`. -/
def memoryUsageViolations (config : CIPerformanceConfig)
    (metrics : BuildPerformanceMetrics) : List BudgetViolation :=
  match config.budgets.memoryUsage with
  | some mu =>
    if mu ≠ 0 ∧ metrics.peakMemoryUsage > mu then
      [{ metric := "memory-usage", actual := metrics.peakMemoryUsage, budget := mu
         severity := if metrics.peakMemoryUsage > mu * 1.3 then ViolationSeverity.error
           else ViolationSeverity.warning
         recommendation := "Increase memory limits or optimize memory usage" }]
    else []
  | none => []

/-- The module-count check of `enforcePerformanceBudgets`. -/
def moduleCountViolations (config : CIPerformanceConfig)
    (metrics : BuildPerformanceMetrics) : List BudgetViolation :=
  match config.budgets.moduleCount with
  | some mc =>
    if mc ≠ 0 ∧ metrics.moduleCount > mc then
      [{ metric := "module-count", actual := metrics.moduleCount, budget := mc
         severity := if metrics.moduleCount > mc * 1.2 then ViolationSeverity.error
           else ViolationSeverity.warning
         recommendation := "Review and remove unused modules or dependencies" }]
    else []
  | none => []

/-- `enforcePerformanceBudgets`: the four checks in source order; each reported
violation compares the actual value strictly against its budget, and the whole
check passes exactly when no violation has severity `error`. -/
def enforcePerformanceBudgets (config : CIPerformanceConfig)
    (metrics : BuildPerformanceMetrics) : EnforceResult :=
  let violations := bundleSizeViolations config metrics ++
    buildTimeViolations config metrics ++ memoryUsageViolations config metrics ++
    moduleCountViolations config metrics
  { passed := (violations.filter fun v => v.severity = ViolationSeverity.error).length = 0
    violations := violations }

/-- `CIContext` (the fields read by the embedded functions). -/
structure CIContext where
  branch : String
  commit : String
  author : String
  buildId : String
deriving DecidableEq, Repr

/-- The historical entry built inside `updateHistoricalData`.  `nowId` and
`nowTs` stand for `Date.now().toString()` and `new Date().toISOString()`;
`context.buildId || nowId` is JS string truthiness, so an empty build id also
falls back. -/
def mkHistoricalEntry (metrics : BuildPerformanceMetrics)
    (healthScore : BuildHealthScore) (context : CIContext)
    (nowId nowTs : String) : HistoricalPerformanceData :=
  { buildId := if context.buildId = "" then nowId else context.buildId
    commit := { hash := context.commit, message := "", author := context.author
                timestamp := nowTs, branch := context.branch }
    metrics := metrics
    healthScore := healthScore
    trends := { direction := TrendDirection.stable, changePercentage := 0, confidence := 0.5 } }

/-- `updateHistoricalData` on the in-memory list: push the new entry, then keep
only the last 100 entries.  (Persisting the list to disk is not modelled.) -/
def updateHistoricalData (historicalData : List HistoricalPerformanceData)
    (metrics : BuildPerformanceMetrics) (healthScore : BuildHealthScore)
    (context : CIContext) (nowId nowTs : String) : List HistoricalPerformanceData :=
  let pushed := historicalData ++ [mkHistoricalEntry metrics healthScore context nowId nowTs]
  if pushed.length > 100 then jsSliceLast 100 pushed else pushed

/-- The semantic part of the record returned by `runCIPerformanceMonitoring`
(`reportPath` names a written file and `recommendations` is presentation text;
neither is modelled). -/
structure CIMonitoringResult where
  healthScore : BuildHealthScore
  regressions : List PerformanceRegression
  canDeploy : Bool
deriving DecidableEq, Repr

/-- The pure computation of `runCIPerformanceMonitoring`: health score from the
scorer built over `config.budgets`, regressions against the in-memory
historical data, and the deployment decision. -/
def runCIPerformanceMonitoring (config : CIPerformanceConfig)
    (historicalData : List HistoricalPerformanceData)
    (metrics : BuildPerformanceMetrics) : CIMonitoringResult :=
  let healthScoring := BuildHealthScoring.new config.budgets
  let healthScore := healthScoring.calculateHealthScore metrics
  let regressions := BuildHealthScoring.detectRegressions metrics historicalData
  let canDeploy := shouldAllowDeployment config regressions healthScore
  { healthScore := healthScore, regressions := regressions, canDeploy := canDeploy }

end CIPerformanceMonitoring

/-! ## JavaScript objects as association lists

Configuration objects that are assembled by object spreading are modelled as
association lists in which the *last* binding of a key wins, exactly the
semantics of `{...a, ...b}` read through property lookup; the spread itself is
then plain list concatenation. -/

/-- A JSON-like JavaScript value. -/
inductive JVal where
  | s : String → JVal
  | b : Bool → JVal
  | n : ℚ → JVal
  | arr : List JVal → JVal
  | obj : List (String × JVal) → JVal

/-- An object is a list of key/value bindings; the last binding of a key wins. -/
abbrev JObj := List (String × JVal)

/-- Property lookup: the value of the last binding of `k`, if any. -/
def jget (o : JObj) (k : String) : Option JVal :=
  match o with
  | [] => none
  | p :: rest =>
    match jget rest k with
    | some v => some v
    | none => if p.1 = k then some p.2 else none

/-- Rest-destructuring `const { k, ...rest } = o`: drop every binding of `k`. -/
def jremove (o : JObj) (k : String) : JObj :=
  o.filter fun p => p.1 ≠ k

/-- JS truthiness of a value. -/
def jsTruthy : JVal → Bool
  | JVal.s v => v ≠ ""
  | JVal.b v => v
  | JVal.n v => v ≠ 0
  | JVal.arr _ => true
  | JVal.obj _ => true

/-- JS `x || d` for a possibly-absent `x`. -/
def jsOr (x : Option JVal) (d : JVal) : JVal :=
  match x with
  | some v => if jsTruthy v then v else d
  | none => d

/-- The elements of `x || []` when `x` should be an array
(spreading a non-array is a runtime error; claims never reach that case). -/
def jsArrElems (x : Option JVal) : List JVal :=
  match x with
  | some (JVal.arr l) => l
  | _ => []

/-- The bindings of `x` when `x` is an object, else none
(`{...x}` spreads nothing when `x` is `undefined`). -/
def jsObjFields (x : Option JVal) : JObj :=
  match x with
  | some (JVal.obj o) => o
  | _ => []

/-! ## Jest (`src/jest/buildJestConfig.ts`, `src/jest/presets/*.ts`) -/

namespace Jest

/-- `basePreset()` (it takes no parameters). -/
def basePreset : JObj :=
  [("testEnvironment", JVal.s "node"),
   ("roots", JVal.arr [JVal.s "<rootDir>/src"]),
   ("testMatch", JVal.arr [JVal.s "**/__tests__/**/*.\x7bjs,jsx,ts,tsx\x7d",
     JVal.s "**/*.\x7bspec,test\x7d.\x7bjs,jsx,ts,tsx\x7d"]),
   ("moduleFileExtensions", JVal.arr [JVal.s "js", JVal.s "jsx", JVal.s "ts",
     JVal.s "tsx", JVal.s "json", JVal.s "node"]),
   ("collectCoverageFrom", JVal.arr [JVal.s "src/**/*.\x7bjs,jsx,ts,tsx\x7d",
     JVal.s "!src/**/*.d.ts", JVal.s "!src/**/*.stories.\x7bjs,jsx,ts,tsx\x7d",
     JVal.s "!src/**/__tests__/**"])]

/-- `reactPreset(options)` (`basePreset(options)` ignores its argument). -/
def reactPreset (options : JObj) : JObj :=
  basePreset ++
  [("preset", jsOr (jget options "preset") (JVal.s "react-testing-library")),
   ("setupFilesAfterEnv", JVal.arr (jsArrElems (jget options "setupFilesAfterEnv") ++
     [JVal.s "<rootDir>/src/setupTests.ts"])),
   ("testEnvironment", JVal.s "jsdom"),
   ("moduleNameMapper", JVal.obj
     ([("\\.\\.(css|less|scss|sass|styl)$", JVal.s "identity-obj-proxy")] ++
      jsObjFields (jget options "moduleNameMapper"))),
   ("transform", JVal.obj
     ([("\\.\\.(js|jsx|ts|tsx)$", JVal.s "babel-jest")] ++
      jsObjFields (jget options "transform")))]

/-- `typescriptPreset(options)`. -/
def typescriptPreset (options : JObj) : JObj :=
  basePreset ++
  [("preset", jsOr (jget options "preset") (JVal.s "ts-jest")),
   ("globals", JVal.obj
     (jsObjFields (jget options "globals") ++
      [("ts-jest", JVal.obj
        [("diagnostics", JVal.obj
          [("ignorePatterns", JVal.arr [JVal.s "/node_modules/"])]),
         ("tsconfig", JVal.s "tsconfig.json")])])),
   ("moduleFileExtensions", JVal.arr (jsArrElems (jget options "moduleFileExtensions") ++
     [JVal.s "ts", JVal.s "tsx"])),
   ("transform", JVal.obj
     ([("\\.\\.(ts|tsx)$", JVal.s "ts-jest")] ++
      jsObjFields (jget options "transform"))),
   ("testMatch", JVal.arr (jsArrElems (jget options "testMatch") ++
     [JVal.s "**/__tests__/**/*.+(ts|tsx)", JVal.s "**/?(*.)+(spec|test).+(ts|tsx)"]))]

/-- The `switch (options.preset)` of `buildJestConfig`: the presets are invoked
with no argument, and any value other than `'react'` / `'typescript'` selects
the base preset. -/
def presetConfigOf (options : JObj) : JObj :=
  match jget options "preset" with
  | some (JVal.s "react") => reactPreset []
  | some (JVal.s "typescript") => typescriptPreset []
  | _ => basePreset

/-- A field written with a `?? ... ?? default` chain in an object literal. -/
def chainField (k : String) (user preset : Option JVal) (d : JVal) : JObj :=
  [(k, ((user.orElse fun _ => preset).getD d))]

/-- The `coverageThreshold` property, written `options.coverageThreshold ??
presetConfig.coverageThreshold` with no final default: the binding is emitted
only when one side is present. -/
def coverageThresholdField (x : Option JVal) : JObj :=
  match x with
  | some v => [("coverageThreshold", v)]
  | none => []

/-- `buildJestConfig`.  `cwd` stands for `process.cwd()`.  The
`coverageThreshold` property is written `options.coverageThreshold ??
presetConfig.coverageThreshold` with no final default, so its binding is
emitted only when one side is present. -/
def buildJestConfig (cwd : JVal) (options : JObj) : JObj :=
  let presetConfig := presetConfigOf options
  let config : JObj :=
    presetConfig ++ options ++
    chainField "testPathIgnorePatterns" (jget options "testPathIgnorePatterns")
      (jget presetConfig "testPathIgnorePatterns")
      (JVal.arr [JVal.s "/node_modules/", JVal.s "/dist/", JVal.s "/build/"]) ++
    chainField "coverageReporters" (jget options "coverageReporters")
      (jget presetConfig "coverageReporters")
      (JVal.arr [JVal.s "json", JVal.s "lcov", JVal.s "text", JVal.s "clover"]) ++
    chainField "rootDir" (jget options "rootDir") (jget presetConfig "rootDir") cwd ++
    chainField "collectCoverage" (jget options "collectCoverage")
      (jget presetConfig "collectCoverage") (JVal.b false) ++
    chainField "coverageDirectory" (jget options "coverageDirectory")
      (jget presetConfig "coverageDirectory") (JVal.s "coverage") ++
    chainField "testTimeout" (jget options "testTimeout")
      (jget presetConfig "testTimeout") (JVal.n 5000) ++
    chainField "verbose" (jget options "verbose") (jget presetConfig "verbose")
      (JVal.b false) ++
    chainField "bail" (jget options "bail") (jget presetConfig "bail") (JVal.b false) ++
    chainField "notify" (jget options "notify") (jget presetConfig "notify")
      (JVal.b false) ++
    chainField "notifyMode" (jget options "notifyMode") (jget presetConfig "notifyMode")
      (JVal.s "always") ++
    chainField "maxWorkers" (jget options "maxWorkers") (jget presetConfig "maxWorkers")
      (JVal.s "50%") ++
    coverageThresholdField ((jget options "coverageThreshold").orElse
      fun _ => jget presetConfig "coverageThreshold")
  jremove config "preset"

end Jest

/-! ## Vitest (`src/vitest/buildVitestConfig.ts`, `src/vitest/presets/*.ts`) -/

namespace Vitest

/-- `basePreset()`. -/
def basePreset : JObj :=
  [("test", JVal.obj
    [("globals", JVal.b true),
     ("environment", JVal.s "node"),
     ("include", JVal.arr [JVal.s "**/__tests__/**/*.\x7bjs,jsx,ts,tsx\x7d",
       JVal.s "**/*.\x7bspec,test\x7d.\x7bjs,jsx,ts,tsx\x7d"]),
     ("exclude", JVal.arr [JVal.s "**/node_modules/**", JVal.s "**/dist/**",
       JVal.s "**/build/**"])])]

/-- `reactPreset()`. -/
def reactPreset : JObj :=
  [("test", JVal.obj
    [("globals", JVal.b true),
     ("environment", JVal.s "jsdom"),
     ("setupFiles", JVal.arr [JVal.s "<rootDir>/node_modules/@testing-library/jest-dom"]),
     ("include", JVal.arr [JVal.s "**/__tests__/**/*.\x7bjs,jsx,ts,tsx\x7d",
       JVal.s "**/*.\x7bspec,test\x7d.\x7bjs,jsx,ts,tsx\x7d"]),
     ("exclude", JVal.arr [JVal.s "**/node_modules/**", JVal.s "**/dist/**",
       JVal.s "**/build/**"])])]

/-- `typescriptPreset()`. -/
def typescriptPreset : JObj :=
  [("test", JVal.obj
    [("globals", JVal.b true),
     ("environment", JVal.s "node"),
     ("include", JVal.arr [JVal.s "**/__tests__/**/*.\x7bts,tsx\x7d",
       JVal.s "**/*.\x7bspec,test\x7d.\x7bts,tsx\x7d"]),
     ("exclude", JVal.arr [JVal.s "**/node_modules/**", JVal.s "**/dist/**",
       JVal.s "**/build/**"])])]

/-- The `switch (options.preset)` of `buildVitestConfig`. -/
def presetConfigOf (options : JObj) : JObj :=
  match jget options "preset" with
  | some (JVal.s "react") => reactPreset
  | some (JVal.s "typescript") => typescriptPreset
  | _ => basePreset

/-- `buildVitestConfig`.  Step 2 builds `config` with the nested `test` merge;
step 3 then spreads the raw user options (minus `preset`) *over* `config`
again, so a user-supplied `test` object replaces the merged one wholesale. -/
def buildVitestConfig (options : JObj) : JObj :=
  let presetConfig := presetConfigOf options
  let presetTest := jsObjFields (jget presetConfig "test")
  let optionsTest := jsObjFields (jget options "test")
  let testObj : JObj :=
    presetTest ++ optionsTest ++
    [("globals", ((jget optionsTest "globals").orElse
        fun _ => jget presetTest "globals").getD (JVal.b true)),
     ("environment", ((jget optionsTest "environment").orElse
        fun _ => jget presetTest "environment").getD (JVal.s "node")),
     ("include", ((jget optionsTest "include").orElse
        fun _ => jget presetTest "include").getD
        (JVal.arr [JVal.s "**/*.\x7btest,spec\x7d.\x7bjs,jsx,ts,tsx\x7d"])),
     ("exclude", ((jget optionsTest "exclude").orElse
        fun _ => jget presetTest "exclude").getD
        (JVal.arr [JVal.s "**/node_modules/**", JVal.s "**/dist/**"]))]
  let config : JObj := presetConfig ++ options ++ [("test", JVal.obj testObj)]
  let finalOptions := jremove options "preset"
  config ++ finalOptions

/-- Lookup of a sub-field of the `test` object of a built configuration. -/
def testField (o : JObj) (k : String) : Option JVal :=
  jget (jsObjFields (jget o "test")) k

end Vitest

/-! ## ESLint (`src/eslint/buildEslintConfig.ts`) -/

namespace Eslint

/-- The `strict` entry of `rulePresets`. -/
def strictPresetRules : JObj :=
  [("@typescript-eslint/no-explicit-any", JVal.s "error"),
   ("@typescript-eslint/strict-boolean-expressions", JVal.s "error"),
   ("@typescript-eslint/prefer-nullish-coalescing", JVal.s "error"),
   ("@typescript-eslint/prefer-optional-chain", JVal.s "error"),
   ("@typescript-eslint/no-unnecessary-type-assertion", JVal.s "error"),
   ("no-console", JVal.s "error"),
   ("no-debugger", JVal.s "error"),
   ("no-alert", JVal.s "error"),
   ("react/jsx-props-no-spreading", JVal.s "error")]

/-- The `standard` entry of `rulePresets`. -/
def standardPresetRules : JObj :=
  [("@typescript-eslint/no-explicit-any", JVal.s "warn"),
   ("@typescript-eslint/prefer-nullish-coalescing", JVal.s "error"),
   ("@typescript-eslint/prefer-optional-chain", JVal.s "error"),
   ("@typescript-eslint/no-unnecessary-type-assertion", JVal.s "warn"),
   ("no-console", JVal.s "warn"),
   ("no-debugger", JVal.s "error"),
   ("no-alert", JVal.s "error"),
   ("react/jsx-props-no-spreading", JVal.s "warn")]

/-- The `relaxed` entry of `rulePresets`. -/
def relaxedPresetRules : JObj :=
  [("@typescript-eslint/no-explicit-any", JVal.s "off"),
   ("@typescript-eslint/strict-boolean-expressions", JVal.s "off"),
   ("@typescript-eslint/prefer-nullish-coalescing", JVal.s "off"),
   ("@typescript-eslint/prefer-optional-chain", JVal.s "off"),
   ("no-console", JVal.s "off"),
   ("no-debugger", JVal.s "warn"),
   ("no-alert", JVal.s "warn"),
   ("react/jsx-props-no-spreading", JVal.s "off")]

/-- The `minimal` entry of `rulePresets`. -/
def minimalPresetRules : JObj :=
  [("@typescript-eslint/explicit-function-return-type", JVal.s "off"),
   ("@typescript-eslint/explicit-module-boundary-types", JVal.s "off"),
   ("@typescript-eslint/no-unused-vars", JVal.s "off"),
   ("@typescript-eslint/strict-boolean-expressions", JVal.s "off"),
   ("@typescript-eslint/prefer-nullish-coalescing", JVal.s "off"),
   ("@typescript-eslint/prefer-optional-chain", JVal.s "off"),
   ("no-console", JVal.s "off"),
   ("no-debugger", JVal.s "off"),
   ("max-len", JVal.s "off")]

/-- `rulePresets[preset]` as a partial lookup. -/
def rulePresets (preset : String) : Option JObj :=
  if preset = "strict" then some strictPresetRules
  else if preset = "standard" then some standardPresetRules
  else if preset = "relaxed" then some relaxedPresetRules
  else if preset = "minimal" then some minimalPresetRules
  else none

/-- `coreRules`. -/
def coreRules : JObj :=
  [("import/order", JVal.arr [JVal.s "error", JVal.obj
     [("groups", JVal.arr [JVal.arr [JVal.s "builtin", JVal.s "external"],
        JVal.s "internal", JVal.arr [JVal.s "parent", JVal.s "sibling"], JVal.s "index"]),
      ("pathGroups", JVal.arr
        [JVal.obj [("pattern", JVal.s "@react/**"), ("group", JVal.s "external"),
          ("position", JVal.s "before")],
         JVal.obj [("pattern", JVal.s "@src/**"), ("group", JVal.s "internal"),
          ("position", JVal.s "before")]]),
      ("newlines-between", JVal.s "always"),
      ("alphabetize", JVal.obj [("order", JVal.s "asc"),
        ("caseInsensitive", JVal.b true)])]]),
   ("@typescript-eslint/adjacent-overload-signatures", JVal.s "error"),
   ("@typescript-eslint/array-type", JVal.arr [JVal.s "error",
     JVal.obj [("default", JVal.s "generic")]]),
   ("@typescript-eslint/ban-ts-comment", JVal.s "warn"),
   ("@typescript-eslint/consistent-generic-constructors", JVal.s "error"),
   ("@typescript-eslint/consistent-indexed-object-style", JVal.arr [JVal.s "error",
     JVal.s "record"]),
   ("@typescript-eslint/consistent-type-assertions", JVal.s "error"),
   ("@typescript-eslint/consistent-type-definitions", JVal.arr [JVal.s "error",
     JVal.s "interface"]),
   ("@typescript-eslint/explicit-function-return-type", JVal.arr [JVal.s "error",
     JVal.obj [("allowExpressions", JVal.b true)]]),
   ("@typescript-eslint/explicit-module-boundary-types", JVal.s "error"),
   ("@typescript-eslint/member-ordering", JVal.s "error"),
   ("@typescript-eslint/method-signature-style", JVal.s "error"),
   ("@typescript-eslint/no-array-constructor", JVal.s "error"),
   ("@typescript-eslint/no-duplicate-type-constituents", JVal.s "error"),
   ("@typescript-eslint/no-empty-object-type", JVal.s "error"),
   ("@typescript-eslint/no-inferrable-types", JVal.s "off"),
   ("@typescript-eslint/no-misused-new", JVal.s "error"),
   ("@typescript-eslint/no-namespace", JVal.s "error"),
   ("@typescript-eslint/no-redundant-type-constituents", JVal.s "error"),
   ("@typescript-eslint/no-require-imports", JVal.s "error"),
   ("@typescript-eslint/no-unnecessary-type-arguments", JVal.s "error"),
   ("@typescript-eslint/no-unused-vars", JVal.arr [JVal.s "warn",
     JVal.obj [("argsIgnorePattern", JVal.s "^_")]]),
   ("@typescript-eslint/no-var-requires", JVal.s "error"),
   ("@typescript-eslint/prefer-as-const", JVal.s "error"),
   ("@typescript-eslint/prefer-function-type", JVal.s "error"),
   ("@typescript-eslint/prefer-namespace-keyword", JVal.s "error"),
   ("@typescript-eslint/prefer-readonly", JVal.s "error"),
   ("@typescript-eslint/prefer-readonly-parameter-types", JVal.s "off"),
   ("@typescript-eslint/prefer-reduce-type-parameter", JVal.s "error"),
   ("@typescript-eslint/prefer-return-this-type", JVal.s "error"),
   ("@typescript-eslint/require-await", JVal.s "error"),
   ("@typescript-eslint/triple-slash-reference", JVal.s "error"),
   ("@typescript-eslint/unified-signatures", JVal.s "error"),
   ("react/display-name", JVal.s "off"),
   ("react/function-component-definition", JVal.arr [JVal.s "error", JVal.obj
     [("namedComponents", JVal.arr [JVal.s "arrow-function",
        JVal.s "function-declaration"]),
      ("unnamedComponents", JVal.arr [JVal.s "arrow-function",
        JVal.s "function-expression"])]]),
   ("react/jsx-boolean-value", JVal.arr [JVal.s "error", JVal.s "always"]),
   ("react/jsx-curly-brace-presence", JVal.arr [JVal.s "error",
     JVal.obj [("props", JVal.s "never"), ("children", JVal.s "never")]]),
   ("react/jsx-filename-extension", JVal.arr [JVal.s "error",
     JVal.obj [("extensions", JVal.arr [JVal.s ".tsx", JVal.s ".jsx"])]]),
   ("react/jsx-no-leaked-render", JVal.arr [JVal.s "error",
     JVal.obj [("validStrategies", JVal.arr [JVal.s "ternary"])]]),
   ("react/jsx-no-useless-fragment", JVal.arr [JVal.s "error",
     JVal.obj [("allowExpressions", JVal.b true)]]),
   ("react/require-default-props", JVal.s "off"),
   ("react-hooks/rules-of-hooks", JVal.s "error"),
   ("react-hooks/exhaustive-deps", JVal.s "error"),
   ("jsx-a11y/click-events-have-key-events", JVal.s "warn"),
   ("jsx-a11y/no-static-element-interactions", JVal.s "warn"),
   ("jsx-a11y/no-autofocus", JVal.s "error"),
   ("jsx-a11y/alt-text", JVal.s "error"),
   ("jsx-a11y/aria-props", JVal.s "error"),
   ("jsx-a11y/aria-proptypes", JVal.s "error"),
   ("jsx-a11y/aria-unsupported-elements", JVal.s "error"),
   ("jsx-a11y/role-has-required-aria-props", JVal.s "error"),
   ("jsx-a11y/role-supports-aria-props", JVal.s "error"),
   ("no-param-reassign", JVal.arr [JVal.s "warn", JVal.obj [("props", JVal.b false)]]),
   ("prefer-const", JVal.s "error"),
   ("prefer-arrow-callback", JVal.s "error"),
   ("prefer-template", JVal.s "error"),
   ("object-shorthand", JVal.s "error"),
   ("prefer-destructuring", JVal.arr [JVal.s "error",
     JVal.obj [("object", JVal.b true), ("array", JVal.b false)]]),
   ("no-var", JVal.s "error"),
   ("quotes", JVal.arr [JVal.s "error", JVal.s "single",
     JVal.obj [("avoidEscape", JVal.b true)]]),
   ("semi", JVal.arr [JVal.s "error", JVal.s "never"]),
   ("comma-dangle", JVal.arr [JVal.s "error", JVal.s "always-multiline"]),
   ("comma-spacing", JVal.arr [JVal.s "error",
     JVal.obj [("before", JVal.b false), ("after", JVal.b true)]]),
   ("space-before-function-paren", JVal.arr [JVal.s "error", JVal.obj
     [("anonymous", JVal.s "always"), ("named", JVal.s "never"),
      ("asyncArrow", JVal.s "always")]]),
   ("space-infix-ops", JVal.s "error"),
   ("keyword-spacing", JVal.s "error"),
   ("object-curly-spacing", JVal.arr [JVal.s "error", JVal.s "always"]),
   ("array-bracket-spacing", JVal.arr [JVal.s "error", JVal.s "never"]),
   ("brace-style", JVal.arr [JVal.s "error", JVal.s "1tbs",
     JVal.obj [("allowSingleLine", JVal.b true)]]),
   ("indent", JVal.arr [JVal.s "error", JVal.n 4, JVal.obj [("SwitchCase", JVal.n 1)]]),
   ("no-else-return", JVal.s "error"),
   ("no-useless-return", JVal.s "error"),
   ("no-return-assign", JVal.s "error"),
   ("no-throw-literal", JVal.s "error"),
   ("prefer-promise-reject-errors", JVal.s "error"),
   ("prefer-object-spread", JVal.s "error"),
   ("prefer-spread", JVal.s "error"),
   ("no-loop-func", JVal.s "error"),
   ("no-extend-native", JVal.s "error"),
   ("no-eval", JVal.s "error"),
   ("no-implied-eval", JVal.s "error"),
   ("no-new-func", JVal.s "error"),
   ("no-script-url", JVal.s "error")]

/-- `i18nextRules`. -/
def i18nextRules : JObj :=
  [("i18next/no-literal-string", JVal.arr [JVal.s "error", JVal.obj
    [("markupOnly", JVal.b true),
     ("ignoreAttribute", JVal.arr [JVal.s "data-testid", JVal.s "to", JVal.s "role"])]])]

/-- The `max-len` rule object generated when `enablePerformanceRules` is set. -/
def maxLenRule (maxLineLength : ℚ) : JVal :=
  JVal.arr [JVal.s "error", JVal.obj
    [("code", JVal.n maxLineLength),
     ("ignoreComments", JVal.b true),
     ("ignoreStrings", JVal.b true),
     ("ignoreTemplateLiterals", JVal.b true)]]

/-- `mergeRulesWithPreset`: `!preset` is JS string falsiness (absent or empty),
and an unknown preset name contributes no rules (`|| {}`). -/
def mergeRulesWithPreset (baseRules : JObj) (preset : Option String) : JObj :=
  match preset with
  | none => baseRules
  | some p =>
    if p = "" ∨ p = "standard" then baseRules
    else baseRules ++ (rulePresets p).getD []

/-- `BuildConfigOptions` (user options of `buildEslintConfig`). -/
structure BuildConfigOptions where
  enableI18next : Option Bool := none
  enableStorybook : Option Bool := none
  enableJest : Option Bool := none
  customRules : Option JObj := none
  ignorePatterns : Option (List String) := none
  tsconfigPath : Option String := none
  preset : Option String := none
  maxLineLength : Option ℚ := none
  enablePerformanceRules : Option Bool := none

/-- The `rules` record assembled by `buildEslintConfig` before the config array
is built: core rules merged with the preset, then `Object.assign` of the
custom rules, the i18next rules (when enabled) and the generated `max-len`
rule (when performance rules are enabled), in that order. -/
def buildEslintRules (options : BuildConfigOptions) : JObj :=
  let preset := options.preset.getD "standard"
  let customRules := options.customRules.getD []
  let enableI18next := options.enableI18next.getD true
  let enablePerformanceRules := options.enablePerformanceRules.getD true
  let maxLineLength := options.maxLineLength.getD 150
  mergeRulesWithPreset coreRules (some preset) ++
  customRules ++
  (if enableI18next then i18nextRules else []) ++
  (if enablePerformanceRules then [("max-len", maxLenRule maxLineLength)] else [])

/-- One entry of the flat config array.  The `languageOptions`, `plugins` and
`settings` members hold imported plugin/parser objects that live outside the
embedding; no claim refers to them. -/
structure LinterConfigEntry where
  ignores : Option (List String) := none
  files : Option (List String) := none
  rules : Option JObj := none

/-- `buildEslintConfig`: the returned flat config array.  Entry 0 is the
global-ignores entry and entry 1 is the main configuration entry carrying the
assembled rules. -/
def buildEslintConfig (options : BuildConfigOptions) : List LinterConfigEntry :=
  let enableI18next := options.enableI18next.getD true
  let enableStorybook := options.enableStorybook.getD true
  let enableJest := options.enableJest.getD true
  let ignorePatterns := options.ignorePatterns.getD []
  [{ ignores := some (["**/node_modules/**", "**/dist/**", "**/build/**",
      "**/coverage/**", "**/.fttemplates/**", "**/storybook-static/**",
      "**/*.min.js"] ++ ignorePatterns) },
   { files := some ["**/*.\x7bts,tsx,js,jsx\x7d"], rules := some (buildEslintRules options) }] ++
  (if enableI18next then [{ files := some ["**/*.\x7bts,tsx,js,jsx\x7d"] }] else []) ++
  (if enableStorybook then
    [{ files := some ["**/*.stories.\x7bts,tsx\x7d"]
       rules := some [("i18next/no-literal-string", JVal.s "off"),
         ("max-len", JVal.s "off"),
         ("react/jsx-props-no-spreading", JVal.s "off")] }]
   else []) ++
  (if enableJest then
    [{ files := some ["**/*.test.\x7bts,tsx\x7d", "**/__tests__/**/*.\x7bts,tsx\x7d"]
       rules := some [("i18next/no-literal-string", JVal.s "off"),
         ("max-len", JVal.s "off"),
         ("@typescript-eslint/no-var-requires", JVal.s "off")] }]
   else []) ++
  [{ files := some ["**/*.js"]
     rules := some [("@typescript-eslint/no-var-requires", JVal.s "off"),
       ("@typescript-eslint/explicit-function-return-type", JVal.s "off"),
       ("@typescript-eslint/explicit-module-boundary-types", JVal.s "off"),
       ("@typescript-eslint/no-unused-vars", JVal.s "off")] }]

/-- Lookup of rule `k` in the rules record of the main configuration entry
(index 1) of the returned array. -/
def mainConfigRulesGet (options : BuildConfigOptions) (k : String) : Option JVal :=
  match (buildEslintConfig options).get? 1 with
  | some e =>
    match e.rules with
    | some r => jget r k
    | none => none
  | none => none

end Eslint

/-! ## Webpack builders (`src/webpack/builders/buildWebpackConfig.ts`,
`src/webpack/plugins/buildMiniCssExtractPlugin.ts`,
`src/webpack/builders/buildPlugins.ts`) -/

namespace Webpack

/-- `BuildPaths`. -/
structure BuildPaths where
  entry : String
  output : String
  html : String
  src : String
deriving DecidableEq, Repr

/-- `BuildOptions` (the fields read by the embedded builders). -/
structure BuildOptions where
  mode : String
  paths : BuildPaths
  isDev : Bool
  analyzer : Option Bool := none
deriving DecidableEq, Repr

/-- The configuration object passed to `new MiniCssExtractPlugin(...)`. -/
structure MiniCssExtractConfig where
  filename : String
  chunkFilename : String
deriving DecidableEq, Repr

/-- `buildMiniCssExtractPlugin`. -/
def buildMiniCssExtractPlugin (options : BuildOptions) : MiniCssExtractConfig :=
  { filename := if options.isDev then "[name].css" else "css/[name].[contenthash:8].css"
    chunkFilename := if options.isDev then "[id].css" else "css/[id].[contenthash:8].css" }

/-- A webpack plugin instance.  Only the MiniCssExtract plugin carries
configuration that a claim refers to; the other plugins are represented by
bare tags. -/
inductive WebpackPlugin where
  | htmlPlugin
  | definePlugin
  | miniCssExtract : MiniCssExtractConfig → WebpackPlugin
  | progressPlugin
  | reactRefresh
  | bundleAnalyzer
deriving DecidableEq, Repr

/-- `buildPlugins`: the four base plugins, plus React Refresh in development
and the bundle analyzer when enabled (`if (analyzer)` is JS truthiness). -/
def buildPlugins (options : BuildOptions) : List WebpackPlugin :=
  [WebpackPlugin.htmlPlugin, WebpackPlugin.definePlugin,
   WebpackPlugin.miniCssExtract (buildMiniCssExtractPlugin options),
   WebpackPlugin.progressPlugin] ++
  (if options.isDev then [WebpackPlugin.reactRefresh] else []) ++
  (if options.analyzer = some true then [WebpackPlugin.bundleAnalyzer] else [])

/-- The `output` record of the webpack configuration. -/
structure OutputConfig where
  path : String
  filename : String
  clean : Bool
deriving DecidableEq, Repr

/-- The webpack configuration returned by `buildWebpackConfig` (the
`module.rules`, `resolve`, `devServer` and `optimization` members are built by
dedicated sub-builders no claim refers to; they are not modelled). -/
structure Configuration where
  mode : String
  entry : String
  output : OutputConfig
  plugins : List WebpackPlugin
deriving DecidableEq, Repr

/-- `buildWebpackConfig`: the output filename is the constant `'[name].js'`,
with no environment-dependent content hash. -/
def buildWebpackConfig (options : BuildOptions) : Configuration :=
  { mode := options.mode
    entry := options.paths.entry
    output := { path := options.paths.output, filename := "[name].js", clean := true }
    plugins := buildPlugins options }

/-- Whether a webpack file-name template contains a content-hash placeholder. -/
def hasContentHash (s : String) : Bool :=
  s.toList.tails.any fun t => "[contenthash".toList.isPrefixOf t

end Webpack

/-! ## Claim-side definitions -/

/-- The severity factor of `enforcePerformanceBudgets` for each metric name:
1.5 for build time, 1.3 for memory, 1.2 for bundle size and module count. -/
def budgetFactor : String → ℚ
  | "build-time" => 1.5
  | "memory-usage" => 1.3
  | _ => 1.2

/-- The fixed regression threshold (in percent) of `detectRegressions` for
each tracked metric. -/
def regressionThreshold : RegressionType → ℚ
  | RegressionType.buildTime => 15
  | RegressionType.bundleSize => 10
  | RegressionType.memory => 20
  | RegressionType.performance => 0

/-- The position of a grade in the order `A < B < C < D < E < F`. -/
def gradeIdx : Grade → ℕ
  | Grade.A => 0
  | Grade.B => 1
  | Grade.C => 2
  | Grade.D => 3
  | Grade.E => 4
  | Grade.F => 5

/-- The baseline window of `detectRegressions`: the last 10 historical builds. -/
def recentWindow (hist : List HistoricalPerformanceData) :
    List HistoricalPerformanceData :=
  jsSliceLast 10 hist

/-- The rolling build-time baseline: the arithmetic mean of the window. -/
def baselineTime (hist : List HistoricalPerformanceData) : ℚ :=
  ((recentWindow hist).map fun d => d.metrics.totalBuildTime).sum /
    (recentWindow hist).length

/-- The rolling bundle-size baseline (a missing bundle analysis counts as 0,
as in the source's `|| 0`). -/
def baselineSize (hist : List HistoricalPerformanceData) : ℚ :=
  ((recentWindow hist).map fun d =>
    (d.metrics.bundleAnalysis.map BundleAnalysis.totalSize).getD 0).sum /
    (recentWindow hist).length

/-- The rolling memory baseline: the arithmetic mean of the window. -/
def baselineMemory (hist : List HistoricalPerformanceData) : ℚ :=
  ((recentWindow hist).map fun d => d.metrics.peakMemoryUsage).sum /
    (recentWindow hist).length

/-- A health score used in concrete witnesses. -/
def emptyHealthScore : BuildHealthScore :=
  BuildHealthScore.mk 0 0 0 0 0 0 Grade.A HealthStatus.good []

/-- A historical entry with the given build time, bundle size and memory,
used in concrete witnesses. -/
def mkHistEntry (t sz m : ℚ) : HistoricalPerformanceData :=
  HistoricalPerformanceData.mk "b1" (CommitData.mk "h" "" "a" "ts" "main")
    (BuildPerformanceMetrics.mk t m 0 (some (BundleAnalysis.mk sz)) [])
    emptyHealthScore (TrendsData.mk TrendDirection.stable 0 0)

/-- Current metrics used in the concrete regression witness: all three tracked
metrics doubled against a baseline of 100. -/
def regressedMetrics : BuildPerformanceMetrics :=
  BuildPerformanceMetrics.mk 200 200 0 (some (BundleAnalysis.mk 200)) []

/-- Metrics whose health score is far below 60 (used in the C8 witness):
build time and memory far over budget and five error-severity hints. -/
def unhealthyMetrics : BuildPerformanceMetrics :=
  BuildPerformanceMetrics.mk 100000 10000 0 none
    [PerformanceHint.mk HintSeverity.error "", PerformanceHint.mk HintSeverity.error "",
     PerformanceHint.mk HintSeverity.error "", PerformanceHint.mk HintSeverity.error "",
     PerformanceHint.mk HintSeverity.error ""]

/-- Metrics with a bundle 1.1 times over the default budget (a warning-level
violation), used in the C9 witness. -/
def overBudgetMetrics : BuildPerformanceMetrics :=
  BuildPerformanceMetrics.mk 0 0 0 (some (BundleAnalysis.mk 1200000)) []

/-- A production-mode webpack build options value. -/
def prodBuildOptions : Webpack.BuildOptions :=
  { mode := "production"
    paths := { entry := "./src/index.tsx", output := "./dist"
               html := "./public/index.html", src := "./src" }
    isDev := false }

/-- The options of the vitest failing input: the react preset together with a
partial `test` object that only sets `globals`. -/
def vitestPartialTestOptions : JObj :=
  [("preset", JVal.s "react"), ("test", JVal.obj [("globals", JVal.b false)])]

/-- ESLint options carrying a custom rule for `max-len`, used against C6. -/
def eslintCustomMaxLenOptions : Eslint.BuildConfigOptions :=
  { customRules := some [("max-len", JVal.s "off")] }

/-- ESLint options carrying a custom rule for `no-console`, used in the C6
amended-claim witness. -/
def eslintCustomNoConsoleOptions : Eslint.BuildConfigOptions :=
  { customRules := some [("no-console", JVal.s "off")] }

/-- The hardcoded Jest fallbacks of `buildJestConfig` per configuration key
(`rootDir` falls back to `process.cwd()`). -/
def jestGlobalDefault (cwd : JVal) (k : String) : Option JVal :=
  if k = "testPathIgnorePatterns" then
    some (JVal.arr [JVal.s "/node_modules/", JVal.s "/dist/", JVal.s "/build/"])
  else if k = "coverageReporters" then
    some (JVal.arr [JVal.s "json", JVal.s "lcov", JVal.s "text", JVal.s "clover"])
  else if k = "rootDir" then some cwd
  else if k = "collectCoverage" then some (JVal.b false)
  else if k = "coverageDirectory" then some (JVal.s "coverage")
  else if k = "testTimeout" then some (JVal.n 5000)
  else if k = "verbose" then some (JVal.b false)
  else if k = "bail" then some (JVal.b false)
  else if k = "notify" then some (JVal.b false)
  else if k = "notifyMode" then some (JVal.s "always")
  else if k = "maxWorkers" then some (JVal.s "50%")
  else none

/-! ## Theorems -/

section HealthScore

open BuildHealthScoring

lemma calculateBuildTimeScore_bounds (self : BuildHealthScoring) (bt : ℚ) :
    0 ≤ self.calculateBuildTimeScore bt ∧ self.calculateBuildTimeScore bt ≤ 100 := by
  cases hb : self.budgets.buildTime with
  | none => simp [calculateBuildTimeScore, hb]
  | some budget =>
    simp only [calculateBuildTimeScore, hb]
    split_ifs <;> norm_num

lemma calculateBundleSizeScore_bounds (self : BuildHealthScoring)
    (ba : Option BundleAnalysis) :
    0 ≤ self.calculateBundleSizeScore ba ∧ self.calculateBundleSizeScore ba ≤ 100 := by
  cases ba with
  | none => simp [calculateBundleSizeScore]
  | some ba =>
    cases hb : self.budgets.bundleSize with
    | none => simp [calculateBundleSizeScore, hb]
    | some budget =>
      simp only [calculateBundleSizeScore, hb]
      split_ifs <;> norm_num

lemma hints_foldl_le (l : List PerformanceHint) (a : ℚ) :
    l.foldl (fun s h =>
      if h.severity = HintSeverity.error then s - 20
      else if h.severity = HintSeverity.warning then s - 10
      else s) a ≤ a := by
  induction l generalizing a with
  | nil => simp
  | cons h t ih =>
    simp only [List.foldl_cons]
    refine le_trans (ih _) ?_
    split_ifs <;> linarith

lemma calculatePerformanceScore_bounds (self : BuildHealthScoring)
    (metrics : BuildPerformanceMetrics) :
    0 ≤ self.calculatePerformanceScore metrics ∧
      self.calculatePerformanceScore metrics ≤ 100 := by
  unfold calculatePerformanceScore
  refine ⟨le_max_left 0 _, ?_⟩
  have hf := hints_foldl_le metrics.performanceHints 100
  refine max_le (by norm_num) ?_
  cases hm : self.budgets.moduleCount with
  | none => simpa using hf
  | some mc =>
    simp only
    split_ifs with hgt
    · have hfl : (0 : ℚ) ≤ (⌊(metrics.moduleCount - mc) / 100⌋ : ℚ) * 5 := by
        have : (0 : ℤ) ≤ ⌊(metrics.moduleCount - mc) / 100⌋ :=
          Int.floor_nonneg.mpr (by linarith)
        have : (0 : ℚ) ≤ (⌊(metrics.moduleCount - mc) / 100⌋ : ℚ) := by exact_mod_cast this
        linarith
      have hmin : (0 : ℚ) ≤ min 20 ((⌊(metrics.moduleCount - mc) / 100⌋ : ℚ) * 5) :=
        le_min (by norm_num) hfl
      linarith
    · linarith

lemma calculateCacheScore_bounds (metrics : BuildPerformanceMetrics) :
    0 ≤ calculateCacheScore metrics ∧ calculateCacheScore metrics ≤ 100 := by
  simp only [calculateCacheScore]
  split_ifs <;> norm_num

lemma calculateMemoryScore_bounds (self : BuildHealthScoring) (p : ℚ) :
    0 ≤ self.calculateMemoryScore p ∧ self.calculateMemoryScore p ≤ 100 := by
  unfold calculateMemoryScore
  split_ifs with h0
  · norm_num
  · cases hb : self.budgets.memoryUsage with
    | none => simp
    | some budget =>
      simp only
      split_ifs <;> norm_num

lemma jsRound_bounds {q : ℚ} (h0 : 0 ≤ q) (h1 : q ≤ 100) :
    0 ≤ (jsRound q : ℚ) ∧ (jsRound q : ℚ) ≤ 100 := by
  unfold jsRound
  constructor
  · have : (0 : ℤ) ≤ ⌊q + 1/2⌋ := Int.le_floor.mpr (by push_cast; linarith)
    exact_mod_cast this
  · have hle : (⌊q + 1/2⌋ : ℚ) ≤ q + 1/2 := Int.floor_le _
    have hlt : (⌊q + 1/2⌋ : ℚ) < 101 := by linarith
    have : ⌊q + 1/2⌋ < 101 := by exact_mod_cast hlt
    have : ⌊q + 1/2⌋ ≤ 100 := by omega
    exact_mod_cast this

/-- C1: `calculateHealthScore` computes five sub-scores that each lie in
`[0, 100]`, and its overall score is the JS-rounded weighted average of the
five with weights 0.25, 0.25, 0.2, 0.15, 0.15, hence also lies in `[0, 100]`. -/
theorem C1_calculateHealthScore_weighted_average_bounded
    (self : BuildHealthScoring) (metrics : BuildPerformanceMetrics) :
    (0 ≤ (self.calculateHealthScore metrics).buildTimeScore ∧
      (self.calculateHealthScore metrics).buildTimeScore ≤ 100) ∧
    (0 ≤ (self.calculateHealthScore metrics).bundleSizeScore ∧
      (self.calculateHealthScore metrics).bundleSizeScore ≤ 100) ∧
    (0 ≤ (self.calculateHealthScore metrics).performanceScore ∧
      (self.calculateHealthScore metrics).performanceScore ≤ 100) ∧
    (0 ≤ (self.calculateHealthScore metrics).cacheScore ∧
      (self.calculateHealthScore metrics).cacheScore ≤ 100) ∧
    (0 ≤ (self.calculateHealthScore metrics).memoryScore ∧
      (self.calculateHealthScore metrics).memoryScore ≤ 100) ∧
    (self.calculateHealthScore metrics).overallScore =
      (jsRound ((self.calculateHealthScore metrics).buildTimeScore * 0.25 +
        (self.calculateHealthScore metrics).bundleSizeScore * 0.25 +
        (self.calculateHealthScore metrics).performanceScore * 0.2 +
        (self.calculateHealthScore metrics).cacheScore * 0.15 +
        (self.calculateHealthScore metrics).memoryScore * 0.15) : ℤ) ∧
    0 ≤ (self.calculateHealthScore metrics).overallScore ∧
    (self.calculateHealthScore metrics).overallScore ≤ 100 := by
  have h1 := calculateBuildTimeScore_bounds self metrics.totalBuildTime
  have h2 := calculateBundleSizeScore_bounds self metrics.bundleAnalysis
  have h3 := calculatePerformanceScore_bounds self metrics
  have h4 := calculateCacheScore_bounds metrics
  have h5 := calculateMemoryScore_bounds self metrics.peakMemoryUsage
  have hw0 : (0 : ℚ) ≤ self.calculateBuildTimeScore metrics.totalBuildTime * 0.25 +
      self.calculateBundleSizeScore metrics.bundleAnalysis * 0.25 +
      self.calculatePerformanceScore metrics * 0.2 +
      calculateCacheScore metrics * 0.15 +
      self.calculateMemoryScore metrics.peakMemoryUsage * 0.15 := by
    have := h1.1; have := h2.1; have := h3.1; have := h4.1; have := h5.1
    linarith
  have hw1 : self.calculateBuildTimeScore metrics.totalBuildTime * 0.25 +
      self.calculateBundleSizeScore metrics.bundleAnalysis * 0.25 +
      self.calculatePerformanceScore metrics * 0.2 +
      calculateCacheScore metrics * 0.15 +
      self.calculateMemoryScore metrics.peakMemoryUsage * 0.15 ≤ 100 := by
    have := h1.2; have := h2.2; have := h3.2; have := h4.2; have := h5.2
    linarith
  have hr := jsRound_bounds hw0 hw1
  exact ⟨h1, h2, h3, h4, h5, rfl, hr.1, hr.2⟩

lemma gradeIdx_antitone (s t : ℚ) (h : s ≤ t) :
    gradeIdx (generateGradeAndStatus t).1 ≤ gradeIdx (generateGradeAndStatus s).1 := by
  unfold generateGradeAndStatus
  split_ifs <;> simp [gradeIdx] <;> linarith

/-- C2: the grade is the score bucketed into the letters A–F by the fixed
thresholds 90 / 80 / 70 / 60 / 50, and grading is antitone in the letter
order: a higher score never receives a later letter. -/
theorem C2_generateGradeAndStatus_buckets_monotone (s : ℚ) :
    (((generateGradeAndStatus s).1 = Grade.A ↔ 90 ≤ s) ∧
     ((generateGradeAndStatus s).1 = Grade.B ↔ 80 ≤ s ∧ s < 90) ∧
     ((generateGradeAndStatus s).1 = Grade.C ↔ 70 ≤ s ∧ s < 80) ∧
     ((generateGradeAndStatus s).1 = Grade.D ↔ 60 ≤ s ∧ s < 70) ∧
     ((generateGradeAndStatus s).1 = Grade.E ↔ 50 ≤ s ∧ s < 60) ∧
     ((generateGradeAndStatus s).1 = Grade.F ↔ s < 50)) ∧
    ∀ t : ℚ, s ≤ t →
      gradeIdx (generateGradeAndStatus t).1 ≤ gradeIdx (generateGradeAndStatus s).1 := by
  constructor
  · unfold generateGradeAndStatus
    split_ifs <;> norm_num <;> and_intros <;>
      first
      | linarith
      | (intros; linarith)
  · exact fun t ht => gradeIdx_antitone s t ht

/-- Witness for C2 at scores 72 and 95. -/
theorem C2_witness :
    gradeIdx (generateGradeAndStatus 95).1 ≤ gradeIdx (generateGradeAndStatus 72).1 :=
  (C2_generateGradeAndStatus_buckets_monotone 72).2 95 (by norm_num)

end HealthScore

section WebpackClaims

open Webpack

/-- Counterexample to C7 as stated: at a concrete production build
(`isDev = false`) the JS output filename of `buildWebpackConfig` contains no
content-hash placeholder, contradicting "the JS output filename … contains a
content-hash placeholder exactly when `isDev` is false". -/
theorem C7_counterexample :
    hasContentHash (buildWebpackConfig prodBuildOptions).output.filename = false := by
  decide

lemma hasContentHash_nameCss : hasContentHash "[name].css" = false := by decide

lemma hasContentHash_cssName : hasContentHash "css/[name].[contenthash:8].css" = true := by
  decide

lemma hasContentHash_idCss : hasContentHash "[id].css" = false := by decide

lemma hasContentHash_cssId : hasContentHash "css/[id].[contenthash:8].css" = true := by
  decide

lemma hasContentHash_nameJs : hasContentHash "[name].js" = false := by decide

/-- C7 (amended): the CSS filename and chunk filename produced by
`buildMiniCssExtractPlugin` contain a content-hash placeholder exactly when
`isDev` is false, while the JS output filename of `buildWebpackConfig` is the
constant `'[name].js'`, which never contains a content hash. -/
theorem C7_amended_hashedOutputs (options : BuildOptions) :
    hasContentHash (buildMiniCssExtractPlugin options).filename = !options.isDev ∧
    hasContentHash (buildMiniCssExtractPlugin options).chunkFilename = !options.isDev ∧
    (buildWebpackConfig options).output.filename = "[name].js" ∧
    hasContentHash (buildWebpackConfig options).output.filename = false := by
  rcases options with ⟨mode, paths, isDev, analyzer⟩
  cases isDev
  · exact ⟨hasContentHash_cssName, hasContentHash_cssId, rfl, hasContentHash_nameJs⟩
  · exact ⟨hasContentHash_nameCss, hasContentHash_idCss, rfl, hasContentHash_nameJs⟩

end WebpackClaims

section CIClaims

open CIPerformanceMonitoring

lemma shouldAllowDeployment_of_low_score (config : CIPerformanceConfig)
    (regressions : List PerformanceRegression) (healthScore : BuildHealthScore)
    (h : healthScore.overallScore < 60) :
    shouldAllowDeployment config regressions healthScore = false := by
  unfold shouldAllowDeployment
  split_ifs <;> rfl

/-- C8: deployment is never allowed when the overall health score is below 60,
for every configuration (including user-overridden regression thresholds) and
every regression list — both for `shouldAllowDeployment` itself and for the
`canDeploy` field computed by `runCIPerformanceMonitoring`. -/
theorem C8_lowScore_never_deploys (config : PartialCIPerformanceConfig)
    (regressions : List PerformanceRegression) (healthScore : BuildHealthScore)
    (hist : List HistoricalPerformanceData) (metrics : BuildPerformanceMetrics) :
    (healthScore.overallScore < 60 →
      shouldAllowDeployment (mkConfig config) regressions healthScore = false) ∧
    ((runCIPerformanceMonitoring (mkConfig config) hist metrics).healthScore.overallScore < 60 →
      (runCIPerformanceMonitoring (mkConfig config) hist metrics).canDeploy = false) :=
  ⟨fun h => shouldAllowDeployment_of_low_score _ _ _ h,
   fun h => shouldAllowDeployment_of_low_score _ _ _ h⟩

lemma unhealthyMetrics_overallScore :
    ((BuildHealthScoring.new defaultBudgets).calculateHealthScore
      unhealthyMetrics).overallScore < 60 := by
  norm_num [BuildHealthScoring.calculateHealthScore, BuildHealthScoring.new,
    BuildHealthScoring.calculateBuildTimeScore, BuildHealthScoring.calculateBundleSizeScore,
    BuildHealthScoring.calculatePerformanceScore, BuildHealthScoring.calculateCacheScore,
    BuildHealthScoring.calculateMemoryScore, defaultBudgets, unhealthyMetrics, jsRound,
    Option.orElse]

/-- Witness for C8 at the default configuration and concrete metrics whose
health score evaluates to 46. -/
theorem C8_witness :
    shouldAllowDeployment (mkConfig {}) [] ((BuildHealthScoring.new
      defaultBudgets).calculateHealthScore unhealthyMetrics) = false ∧
    (runCIPerformanceMonitoring (mkConfig {}) [] unhealthyMetrics).canDeploy = false :=
  ⟨(C8_lowScore_never_deploys {} [] ((BuildHealthScoring.new
      defaultBudgets).calculateHealthScore unhealthyMetrics) [] unhealthyMetrics).1
    unhealthyMetrics_overallScore,
   (C8_lowScore_never_deploys {} [] emptyHealthScore [] unhealthyMetrics).2
    unhealthyMetrics_overallScore⟩

lemma mem_bundleSizeViolations {config : CIPerformanceConfig}
    {metrics : BuildPerformanceMetrics} {v : BudgetViolation}
    (hv : v ∈ bundleSizeViolations config metrics) :
    v.metric = "bundle-size" ∧ v.budget < v.actual ∧
      (v.severity = ViolationSeverity.error ↔ v.budget * budgetFactor v.metric < v.actual) := by
  unfold bundleSizeViolations at hv
  rcases hba : metrics.bundleAnalysis with _ | ba
  all_goals rcases hbs : config.budgets.bundleSize with _ | bs
  all_goals rw [hba, hbs] at hv
  · simp at hv
  · simp at hv
  · simp at hv
  · dsimp only at hv
    split_ifs at hv with hcond hsev
    · simp only [List.mem_singleton] at hv
      subst hv
      exact ⟨rfl, hcond.2, by simp [budgetFactor]; exact hsev⟩
    · simp only [List.mem_singleton] at hv
      subst hv
      exact ⟨rfl, hcond.2, by simp [budgetFactor]; exact le_of_not_lt hsev⟩
    · simp at hv

lemma mem_buildTimeViolations {config : CIPerformanceConfig}
    {metrics : BuildPerformanceMetrics} {v : BudgetViolation}
    (hv : v ∈ buildTimeViolations config metrics) :
    v.metric = "build-time" ∧ v.budget < v.actual ∧
      (v.severity = ViolationSeverity.error ↔ v.budget * budgetFactor v.metric < v.actual) := by
  unfold buildTimeViolations at hv
  rcases hb : config.budgets.buildTime with _ | bt
  all_goals rw [hb] at hv
  · simp at hv
  · dsimp only at hv
    split_ifs at hv with hcond hsev
    · simp only [List.mem_singleton] at hv
      subst hv
      exact ⟨rfl, hcond.2, by simp [budgetFactor]; exact hsev⟩
    · simp only [List.mem_singleton] at hv
      subst hv
      exact ⟨rfl, hcond.2, by simp [budgetFactor]; exact le_of_not_lt hsev⟩
    · simp at hv

lemma mem_memoryUsageViolations {config : CIPerformanceConfig}
    {metrics : BuildPerformanceMetrics} {v : BudgetViolation}
    (hv : v ∈ memoryUsageViolations config metrics) :
    v.metric = "memory-usage" ∧ v.budget < v.actual ∧
      (v.severity = ViolationSeverity.error ↔ v.budget * budgetFactor v.metric < v.actual) := by
  unfold memoryUsageViolations at hv
  rcases hb : config.budgets.memoryUsage with _ | mu
  all_goals rw [hb] at hv
  · simp at hv
  · dsimp only at hv
    split_ifs at hv with hcond hsev
    · simp only [List.mem_singleton] at hv
      subst hv
      exact ⟨rfl, hcond.2, by simp [budgetFactor]; exact hsev⟩
    · simp only [List.mem_singleton] at hv
      subst hv
      exact ⟨rfl, hcond.2, by simp [budgetFactor]; exact le_of_not_lt hsev⟩
    · simp at hv

lemma mem_moduleCountViolations {config : CIPerformanceConfig}
    {metrics : BuildPerformanceMetrics} {v : BudgetViolation}
    (hv : v ∈ moduleCountViolations config metrics) :
    v.metric = "module-count" ∧ v.budget < v.actual ∧
      (v.severity = ViolationSeverity.error ↔ v.budget * budgetFactor v.metric < v.actual) := by
  unfold moduleCountViolations at hv
  rcases hb : config.budgets.moduleCount with _ | mc
  all_goals rw [hb] at hv
  · simp at hv
  · dsimp only at hv
    split_ifs at hv with hcond hsev
    · simp only [List.mem_singleton] at hv
      subst hv
      exact ⟨rfl, hcond.2, by simp [budgetFactor]; exact hsev⟩
    · simp only [List.mem_singleton] at hv
      subst hv
      exact ⟨rfl, hcond.2, by simp [budgetFactor]; exact le_of_not_lt hsev⟩
    · simp at hv

/-- C9: `enforcePerformanceBudgets` passes exactly when no reported violation
has severity `error`; every reported violation concerns one of the four
budgeted metrics, has an actual value strictly greater than its budget, and
has severity `error` exactly when the actual value exceeds the budget times
the metric's fixed factor (1.2 for bundle size and module count, 1.5 for
build time, 1.3 for memory). -/
theorem C9_enforcePerformanceBudgets_spec (config : CIPerformanceConfig)
    (metrics : BuildPerformanceMetrics) :
    ((enforcePerformanceBudgets config metrics).passed = true ↔
      ∀ v ∈ (enforcePerformanceBudgets config metrics).violations,
        v.severity ≠ ViolationSeverity.error) ∧
    ∀ v ∈ (enforcePerformanceBudgets config metrics).violations,
      (v.metric = "bundle-size" ∨ v.metric = "build-time" ∨
        v.metric = "memory-usage" ∨ v.metric = "module-count") ∧
      v.budget < v.actual ∧
      (v.severity = ViolationSeverity.error ↔
        v.budget * budgetFactor v.metric < v.actual) := by
  constructor
  · show decide _ = true ↔ _
    rw [decide_eq_true_iff, List.length_eq_zero, List.filter_eq_nil_iff]
    constructor
    · intro hall v hv
      simpa using hall v hv
    · intro hall v hv
      simpa using hall v hv
  · intro v hv
    simp only [enforcePerformanceBudgets, List.mem_append] at hv
    rcases hv with ((hv | hv) | hv) | hv
    · obtain ⟨h1, h2, h3⟩ := mem_bundleSizeViolations hv
      exact ⟨Or.inl h1, h2, h3⟩
    · obtain ⟨h1, h2, h3⟩ := mem_buildTimeViolations hv
      exact ⟨Or.inr (Or.inl h1), h2, h3⟩
    · obtain ⟨h1, h2, h3⟩ := mem_memoryUsageViolations hv
      exact ⟨Or.inr (Or.inr (Or.inl h1)), h2, h3⟩
    · obtain ⟨h1, h2, h3⟩ := mem_moduleCountViolations hv
      exact ⟨Or.inr (Or.inr (Or.inr h1)), h2, h3⟩

/-- Witness for C9: at the default configuration and a bundle 1.1 times over
budget, the reported violation is a warning with actual strictly over budget
and under the 1.2 error factor. -/
theorem C9_witness :
    ((BudgetViolation.mk "bundle-size" 1200000 1048576 ViolationSeverity.warning
        "Implement code splitting or optimize bundle size").metric = "bundle-size" ∨
      (BudgetViolation.mk "bundle-size" 1200000 1048576 ViolationSeverity.warning
        "Implement code splitting or optimize bundle size").metric = "build-time" ∨
      (BudgetViolation.mk "bundle-size" 1200000 1048576 ViolationSeverity.warning
        "Implement code splitting or optimize bundle size").metric = "memory-usage" ∨
      (BudgetViolation.mk "bundle-size" 1200000 1048576 ViolationSeverity.warning
        "Implement code splitting or optimize bundle size").metric = "module-count") ∧
    (BudgetViolation.mk "bundle-size" 1200000 1048576 ViolationSeverity.warning
      "Implement code splitting or optimize bundle size").budget <
      (BudgetViolation.mk "bundle-size" 1200000 1048576 ViolationSeverity.warning
        "Implement code splitting or optimize bundle size").actual ∧
    ((BudgetViolation.mk "bundle-size" 1200000 1048576 ViolationSeverity.warning
        "Implement code splitting or optimize bundle size").severity =
        ViolationSeverity.error ↔
      (BudgetViolation.mk "bundle-size" 1200000 1048576 ViolationSeverity.warning
          "Implement code splitting or optimize bundle size").budget *
        budgetFactor (BudgetViolation.mk "bundle-size" 1200000 1048576
          ViolationSeverity.warning
          "Implement code splitting or optimize bundle size").metric <
        (BudgetViolation.mk "bundle-size" 1200000 1048576 ViolationSeverity.warning
          "Implement code splitting or optimize bundle size").actual) := by
  have hmem : (enforcePerformanceBudgets (mkConfig {}) overBudgetMetrics).violations =
      [BudgetViolation.mk "bundle-size" 1200000 1048576 ViolationSeverity.warning
        "Implement code splitting or optimize bundle size"] := by
    norm_num [enforcePerformanceBudgets, bundleSizeViolations, buildTimeViolations,
      memoryUsageViolations, moduleCountViolations, mkConfig, defaultBudgets,
      overBudgetMetrics]
  exact (C9_enforcePerformanceBudgets_spec (mkConfig {}) overBudgetMetrics).2
    (BudgetViolation.mk "bundle-size" 1200000 1048576 ViolationSeverity.warning
      "Implement code splitting or optimize bundle size")
    (by rw [hmem]; exact List.mem_singleton.mpr rfl)

/-- C10: after `updateHistoricalData`, the in-memory list has at most 100
entries, is a suffix of the previous list with the new entry appended (so the
retained entries are the most recent ones in their original order), and its
last element is always the entry just appended for the current build. -/
theorem C10_updateHistoricalData_bounded_suffix_last
    (historicalData : List HistoricalPerformanceData)
    (metrics : BuildPerformanceMetrics) (healthScore : BuildHealthScore)
    (context : CIContext) (nowId nowTs : String) :
    (updateHistoricalData historicalData metrics healthScore context nowId nowTs).length ≤ 100 ∧
    (updateHistoricalData historicalData metrics healthScore context nowId nowTs) <:+
      (historicalData ++ [mkHistoricalEntry metrics healthScore context nowId nowTs]) ∧
    (updateHistoricalData historicalData metrics healthScore context nowId nowTs).getLast? =
      some (mkHistoricalEntry metrics healthScore context nowId nowTs) := by
  simp only [updateHistoricalData]
  split_ifs with h
  · have hlen : (historicalData ++
        [mkHistoricalEntry metrics healthScore context nowId nowTs]).length =
        historicalData.length + 1 := by simp
    rw [hlen] at h
    unfold jsSliceLast
    refine ⟨?_, List.drop_suffix _ _, ?_⟩
    · rw [List.length_drop]
      omega
    · rw [hlen, List.drop_append_of_le_length (by omega)]
      exact List.getLast?_concat _
  · exact ⟨by simpa using Nat.le_of_not_lt (by simpa using h), List.suffix_refl _,
      List.getLast?_concat _⟩

end CIClaims


section JObjLemmas

lemma jget_append (a b : JObj) (k : String) :
    jget (a ++ b) k = (jget b k).orElse fun _ => jget a k := by
  induction a with
  | nil => cases h : jget b k <;> simp [jget, Option.orElse, h]
  | cons p rest ih =>
    simp only [List.cons_append, jget, List.append_eq]
    rw [ih]
    cases hb : jget b k <;> cases hr : jget rest k <;> simp [Option.orElse]

lemma jget_singleton (k k' : String) (v : JVal) :
    jget [(k', v)] k = if k = k' then some v else none := by
  simp only [jget]
  rcases eq_or_ne k' k with h | h
  · subst h
    simp
  · simp [h, Ne.symm h]

lemma jget_jremove (o : JObj) (r k : String) (h : r ≠ k) :
    jget (jremove o r) k = jget o k := by
  induction o with
  | nil => rfl
  | cons p rest ih =>
    by_cases hp : p.1 = r
    · have : jremove (p :: rest) r = jremove rest r := by
        simp [jremove, List.filter, hp]
      rw [this, ih]
      have hk : ¬ p.1 = k := by
        rw [hp]
        exact h
      simp [jget, hk]
      cases jget rest k <;> simp
    · have : jremove (p :: rest) r = p :: jremove rest r := by
        simp [jremove, List.filter, hp]
      rw [this]
      simp only [jget, ih]

lemma mem_jremove_ne {o : JObj} {r : String} {p : String × JVal}
    (hp : p ∈ jremove o r) : p.1 ≠ r := by
  have := List.of_mem_filter hp
  simpa using this

end JObjLemmas

section VitestClaims

/-- C5 fails on the code: with the react preset and a partial user `test`
object `{ globals: false }`, the returned `test` object has no `environment`
sub-field at all — the final spread of the raw options replaces the merged
`test` object wholesale — although the react preset supplies
`environment: 'jsdom'` and the hardcoded default is `'node'`.  The user's own
`globals: false` is retained. -/
theorem C5_buildVitestConfig_partial_test_clobbers_merge :
    Vitest.testField (Vitest.buildVitestConfig vitestPartialTestOptions) "environment" =
      none ∧
    Vitest.testField (Vitest.buildVitestConfig vitestPartialTestOptions) "globals" =
      some (JVal.b false) ∧
    Vitest.testField Vitest.reactPreset "environment" = some (JVal.s "jsdom") :=
  ⟨rfl, rfl, rfl⟩

end VitestClaims

section EslintClaims

/-- Counterexample to C6 as stated: with default options and
`customRules = { 'max-len': 'off' }`, the main configuration entry's rules do
not map `max-len` to the custom value — the generated performance rule
overrides it. -/
theorem C6_counterexample_maxLen_overridden :
    Eslint.mainConfigRulesGet eslintCustomMaxLenOptions "max-len" ≠
      some (JVal.s "off") := by
  have h : Eslint.mainConfigRulesGet eslintCustomMaxLenOptions "max-len" =
      some (Eslint.maxLenRule 150) := rfl
  rw [h]
  simp [Eslint.maxLenRule]

lemma mainConfigRulesGet_eq (options : Eslint.BuildConfigOptions) (k : String) :
    Eslint.mainConfigRulesGet options k = jget (Eslint.buildEslintRules options) k := rfl

/-- C6 (amended): a custom rule always overrides the core rules and the preset
rules, unless `enableI18next` is on and the key is the i18next rule
`i18next/no-literal-string`, or `enablePerformanceRules` is on and the key is
`max-len`; in those two cases the feature-generated rule wins because it is
assigned after the custom rules. -/
theorem C6_amended_customRules_precedence (options : Eslint.BuildConfigOptions)
    (k : String) (v : JVal)
    (hcustom : jget (options.customRules.getD []) k = some v)
    (hi18 : ¬(options.enableI18next.getD true = true ∧ k = "i18next/no-literal-string"))
    (hperf : ¬(options.enablePerformanceRules.getD true = true ∧ k = "max-len")) :
    Eslint.mainConfigRulesGet options k = some v := by
  rw [mainConfigRulesGet_eq]
  simp only [Eslint.buildEslintRules]
  rw [jget_append, jget_append, jget_append]
  have hmax : jget (if options.enablePerformanceRules.getD true = true then
      [("max-len", Eslint.maxLenRule (options.maxLineLength.getD 150))] else []) k =
      none := by
    split_ifs with hp
    · rw [jget_singleton]
      have hk : ¬ k = "max-len" := fun he => hperf ⟨hp, he⟩
      simp [hk]
    · rfl
  have hi : jget (if options.enableI18next.getD true = true then
      Eslint.i18nextRules else []) k = none := by
    split_ifs with hp
    · rw [show Eslint.i18nextRules = [("i18next/no-literal-string",
        JVal.arr [JVal.s "error", JVal.obj
          [("markupOnly", JVal.b true),
           ("ignoreAttribute", JVal.arr [JVal.s "data-testid", JVal.s "to",
             JVal.s "role"])]])] from rfl, jget_singleton]
      have hk : ¬ k = "i18next/no-literal-string" := fun he => hi18 ⟨hp, he⟩
      simp [hk]
    · rfl
  rw [hmax, hi, hcustom]
  rfl

/-- Witness for the amended C6: a custom `no-console: 'off'` rule survives
into the main configuration entry under default options. -/
theorem C6_amended_witness :
    Eslint.mainConfigRulesGet eslintCustomNoConsoleOptions "no-console" =
      some (JVal.s "off") :=
  C6_amended_customRules_precedence eslintCustomNoConsoleOptions "no-console"
    (JVal.s "off") rfl (by simp) (by simp)

end EslintClaims

section JestClaims

lemma jget_coverageThresholdField_self (x : Option JVal) :
    jget (Jest.coverageThresholdField x) "coverageThreshold" = x := by
  cases x <;> simp [Jest.coverageThresholdField, jget_singleton, jget]

lemma jget_coverageThresholdField_ne (x : Option JVal) {k : String}
    (hk : ¬ k = "coverageThreshold") :
    jget (Jest.coverageThresholdField x) k = none := by
  cases x <;> simp [Jest.coverageThresholdField, jget_singleton, jget, hk, Ne.symm hk]

/-- C4: `buildJestConfig` never returns a `preset` binding, and every
configuration key resolves with precedence user option, then selected preset,
then hardcoded global default (none for keys that have no global default). -/
theorem C4_buildJestConfig_precedence (cwd : JVal) (options : JObj) :
    (∀ p ∈ Jest.buildJestConfig cwd options, p.1 ≠ "preset") ∧
    ∀ k, k ≠ "preset" →
      jget (Jest.buildJestConfig cwd options) k =
        ((jget options k).orElse fun _ => jget (Jest.presetConfigOf options) k).orElse
          fun _ => jestGlobalDefault cwd k := by
  constructor
  · intro p hp
    simp only [Jest.buildJestConfig] at hp
    exact mem_jremove_ne hp
  · intro k hk
    simp only [Jest.buildJestConfig, Jest.chainField]
    rw [jget_jremove _ _ _ (Ne.symm hk)]
    simp only [jget_append, jget_singleton]
    by_cases h0 : k = "coverageThreshold"
    · subst h0
      rw [jget_coverageThresholdField_self]
      cases hx : (jget options "coverageThreshold").orElse
          fun _ => jget (Jest.presetConfigOf options) "coverageThreshold" <;>
        simp [jestGlobalDefault, Option.orElse]
    rw [jget_coverageThresholdField_ne _ h0]
    by_cases h1 : k = "testPathIgnorePatterns"
    · subst h1
      cases hx : (jget options "testPathIgnorePatterns").orElse
          fun _ => jget (Jest.presetConfigOf options) "testPathIgnorePatterns" <;>
        simp [jestGlobalDefault, Option.orElse]
    by_cases h2 : k = "coverageReporters"
    · subst h2
      cases hx : (jget options "coverageReporters").orElse
          fun _ => jget (Jest.presetConfigOf options) "coverageReporters" <;>
        simp [jestGlobalDefault, Option.orElse]
    by_cases h3 : k = "rootDir"
    · subst h3
      cases hx : (jget options "rootDir").orElse
          fun _ => jget (Jest.presetConfigOf options) "rootDir" <;>
        simp [jestGlobalDefault, Option.orElse]
    by_cases h4 : k = "collectCoverage"
    · subst h4
      cases hx : (jget options "collectCoverage").orElse
          fun _ => jget (Jest.presetConfigOf options) "collectCoverage" <;>
        simp [jestGlobalDefault, Option.orElse]
    by_cases h5 : k = "coverageDirectory"
    · subst h5
      cases hx : (jget options "coverageDirectory").orElse
          fun _ => jget (Jest.presetConfigOf options) "coverageDirectory" <;>
        simp [jestGlobalDefault, Option.orElse]
    by_cases h6 : k = "testTimeout"
    · subst h6
      cases hx : (jget options "testTimeout").orElse
          fun _ => jget (Jest.presetConfigOf options) "testTimeout" <;>
        simp [jestGlobalDefault, Option.orElse]
    by_cases h7 : k = "verbose"
    · subst h7
      cases hx : (jget options "verbose").orElse
          fun _ => jget (Jest.presetConfigOf options) "verbose" <;>
        simp [jestGlobalDefault, Option.orElse]
    by_cases h8 : k = "bail"
    · subst h8
      cases hx : (jget options "bail").orElse
          fun _ => jget (Jest.presetConfigOf options) "bail" <;>
        simp [jestGlobalDefault, Option.orElse]
    by_cases h9 : k = "notify"
    · subst h9
      cases hx : (jget options "notify").orElse
          fun _ => jget (Jest.presetConfigOf options) "notify" <;>
        simp [jestGlobalDefault, Option.orElse]
    by_cases h10 : k = "notifyMode"
    · subst h10
      cases hx : (jget options "notifyMode").orElse
          fun _ => jget (Jest.presetConfigOf options) "notifyMode" <;>
        simp [jestGlobalDefault, Option.orElse]
    by_cases h11 : k = "maxWorkers"
    · subst h11
      cases hx : (jget options "maxWorkers").orElse
          fun _ => jget (Jest.presetConfigOf options) "maxWorkers" <;>
        simp [jestGlobalDefault, Option.orElse]
    simp only [h1, h2, h3, h4, h5, h6, h7, h8, h9, h10, h11, if_false]
    rw [show jestGlobalDefault cwd k = none by
      simp [jestGlobalDefault, h1, h2, h3, h4, h5, h6, h7, h8, h9, h10, h11]]
    cases hx : (jget options k).orElse fun _ => jget (Jest.presetConfigOf options) k <;>
      simp [Option.orElse]

/-- Witness for C4: with no options, `collectCoverage` resolves to the global
default `false`, and the key `collectCoverage` differs from `preset`. -/
theorem C4_witness :
    jget (Jest.buildJestConfig (JVal.s "/repo") []) "collectCoverage" =
      ((jget ([] : JObj) "collectCoverage").orElse
        fun _ => jget (Jest.presetConfigOf []) "collectCoverage").orElse
        fun _ => jestGlobalDefault (JVal.s "/repo") "collectCoverage" :=
  (C4_buildJestConfig_precedence (JVal.s "/repo") []).2 "collectCoverage" (by decide)

end JestClaims

section RegressionClaims

open BuildHealthScoring

lemma foldl_add_eq_sum {α : Type} (f : α → ℚ) (a : ℚ) (l : List α) :
    l.foldl (fun sum d => sum + f d) a = a + (l.map f).sum := by
  induction l generalizing a with
  | nil => simp
  | cons h t ih =>
    simp only [List.foldl_cons, List.map_cons, List.sum_cons, ih]
    ring

lemma jsPercentageChange_of_ne {c b : ℚ} (hb : ¬ b = 0) :
    jsPercentageChange c b = JsNum.num ((c - b) / b * 100) := by
  simp [jsPercentageChange, hb]

lemma gtQ_mono {x : JsNum} {th : ℚ} (hth : 0 < th)
    (h : x.gtQ (th * 2) = true) : x.gtQ (th * 1.5) = true := by
  cases x <;> simp [JsNum.gtQ] at h ⊢
  linarith

lemma checkRegression_eq_some {c b th : ℚ} {ty : RegressionType}
    {r : PerformanceRegression} (hth : 0 < th) (hb : 0 ≤ b)
    (h : checkRegression c b ty th = some r) :
    r.type = ty ∧ r.currentValue = c ∧ r.previousValue = b ∧
    r.percentageChange = jsPercentageChange c b ∧
    r.percentageChange.gtQ th = true ∧
    b < c ∧
    (0 < b → r.percentageChange = JsNum.num ((c - b) / b * 100)) ∧
    (b = 0 → r.percentageChange = JsNum.posInf) ∧
    (r.severity = RegressionSeverity.minor ↔
      r.percentageChange.gtQ (th * 1.5) = false) ∧
    (r.severity = RegressionSeverity.major ↔
      r.percentageChange.gtQ (th * 1.5) = true ∧
        r.percentageChange.gtQ (th * 2) = false) ∧
    (r.severity = RegressionSeverity.critical ↔
      r.percentageChange.gtQ (th * 2) = true) ∧
    (r.isBlocking = true ↔ r.severity = RegressionSeverity.critical) := by
  have hgt : (jsPercentageChange c b).gtQ th = true := by
    simp only [checkRegression] at h
    split_ifs at h with hgt h1 h2 <;> exact hgt
  have hblt : b < c := by
    unfold jsPercentageChange at hgt
    split_ifs at hgt with hb0 hc hc2
    · rw [hb0]
      exact hc
    · simp [JsNum.gtQ] at hgt
    · simp [JsNum.gtQ] at hgt
    · have hbp : 0 < b := lt_of_le_of_ne hb (Ne.symm hb0)
      simp only [JsNum.gtQ, decide_eq_true_eq] at hgt
      have h1 : th * b < (c - b) * 100 := by
        rw [div_mul_eq_mul_div] at hgt
        exact (lt_div_iff₀ hbp).mp hgt
      have h2 : 0 < th * b := mul_pos hth hbp
      linarith
  have hposf : 0 < b → jsPercentageChange c b = JsNum.num ((c - b) / b * 100) :=
    fun hbp => jsPercentageChange_of_ne (ne_of_gt hbp)
  have hzerof : b = 0 → jsPercentageChange c b = JsNum.posInf := by
    intro hb0
    unfold jsPercentageChange
    rw [if_pos hb0, if_pos (hb0 ▸ hblt)]
  simp only [checkRegression] at h
  split_ifs at h with hs1 hs2
  · obtain rfl := (Option.some.inj h).symm
    refine ⟨rfl, rfl, rfl, rfl, hgt, hblt, hposf, hzerof, ?_, ?_, ?_, by simp⟩
    · exact iff_of_false (by simp) (by rw [gtQ_mono hth hs1]; simp)
    · exact iff_of_false (by simp) fun hcon => by rw [hcon.2] at hs1; simp at hs1
    · exact iff_of_true rfl hs1

  · obtain rfl := (Option.some.inj h).symm
    refine ⟨rfl, rfl, rfl, rfl, hgt, hblt, hposf, hzerof, ?_, ?_, ?_, by simp⟩
    · exact iff_of_false (by simp) (by rw [hs2]; simp)
    · exact iff_of_true rfl ⟨hs2, by simpa using hs1⟩
    · exact iff_of_false (by simp) hs1
  · obtain rfl := (Option.some.inj h).symm
    refine ⟨rfl, rfl, rfl, rfl, hgt, hblt, hposf, hzerof, ?_, ?_, ?_, by simp⟩
    · exact iff_of_true rfl (by simpa using hs2)
    · exact iff_of_false (by simp) fun hcon => hs2 hcon.1
    · exact iff_of_false (by simp) hs1

lemma checkRegression_isSome (c b th : ℚ) (ty : RegressionType)
    (h : (jsPercentageChange c b).gtQ th = true) :
    ∃ r, checkRegression c b ty th = some r ∧ r.type = ty := by
  simp only [checkRegression]
  rw [if_pos h]
  exact ⟨_, rfl, rfl⟩

lemma calculateBaseline_spec (l : List HistoricalPerformanceData)
    (hl : ¬ l.length = 0) :
    (calculateBaseline l).totalBuildTime =
      (l.map fun d => d.metrics.totalBuildTime).sum / l.length ∧
    (calculateBaseline l).bundleAnalysis =
      some ⟨(l.map fun d =>
        (d.metrics.bundleAnalysis.map BundleAnalysis.totalSize).getD 0).sum / l.length⟩ ∧
    (calculateBaseline l).peakMemoryUsage =
      (l.map fun d => d.metrics.peakMemoryUsage).sum / l.length := by
  simp only [calculateBaseline]
  rw [if_neg hl]
  refine ⟨?_, ?_, ?_⟩ <;> dsimp only <;> rw [foldl_add_eq_sum] <;> norm_num

end RegressionClaims

/-- C3: for a non-empty history of non-negative metrics, every regression
reported by `detectRegressions` concerns one of the three tracked metrics
(build time, bundle size, memory) and compares the current value against the
rolling baseline — the arithmetic mean over the window of at most the 10 most
recent historical entries.  A regression is reported only for a strict
increase whose percentage change exceeds the metric's threshold (15% / 10% /
20%) under IEEE comparison: over a positive baseline the percentage change is
the finite rational `((current − baseline)/baseline)·100`, and over a zero
baseline (reachable for bundle size) it is `Infinity`.  A decrease or an
in-threshold increase is never reported.  Severity is minor up to 1.5× the
threshold, major up to 2×, critical above 2× (so always critical at a zero
baseline), and the regression is blocking exactly when critical.  Conversely,
whenever a tracked metric exceeds its threshold in this sense (with positive
baseline for the truthiness-guarded build-time and memory checks, and a
present current bundle analysis for the bundle check), a regression of that
metric is reported. -/
theorem C3_detectRegressions_characterized
    (current : BuildPerformanceMetrics) (hist : List HistoricalPerformanceData)
    (hne : hist ≠ [])
    (hnn : ∀ d ∈ hist, 0 ≤ d.metrics.totalBuildTime ∧ 0 ≤ d.metrics.peakMemoryUsage ∧
      ∀ ba, d.metrics.bundleAnalysis = some ba → 0 ≤ ba.totalSize) :
    (recentWindow hist).length ≤ 10 ∧ recentWindow hist <:+ hist ∧
    (∀ r ∈ BuildHealthScoring.detectRegressions current hist,
      (r.type = RegressionType.buildTime ∨ r.type = RegressionType.bundleSize ∨
        r.type = RegressionType.memory) ∧
      (r.type = RegressionType.buildTime →
        r.previousValue = baselineTime hist ∧ r.currentValue = current.totalBuildTime) ∧
      (r.type = RegressionType.bundleSize →
        r.previousValue = baselineSize hist ∧
        ∃ cb, current.bundleAnalysis = some cb ∧ r.currentValue = cb.totalSize) ∧
      (r.type = RegressionType.memory →
        r.previousValue = baselineMemory hist ∧
          r.currentValue = current.peakMemoryUsage) ∧
      0 ≤ r.previousValue ∧
      r.previousValue < r.currentValue ∧
      r.percentageChange = jsPercentageChange r.currentValue r.previousValue ∧
      (0 < r.previousValue → r.percentageChange =
        JsNum.num ((r.currentValue - r.previousValue) / r.previousValue * 100)) ∧
      (r.previousValue = 0 → r.percentageChange = JsNum.posInf) ∧
      r.percentageChange.gtQ (regressionThreshold r.type) = true ∧
      (r.severity = RegressionSeverity.minor ↔
        r.percentageChange.gtQ (regressionThreshold r.type * 1.5) = false) ∧
      (r.severity = RegressionSeverity.major ↔
        r.percentageChange.gtQ (regressionThreshold r.type * 1.5) = true ∧
          r.percentageChange.gtQ (regressionThreshold r.type * 2) = false) ∧
      (r.severity = RegressionSeverity.critical ↔
        r.percentageChange.gtQ (regressionThreshold r.type * 2) = true) ∧
      (r.isBlocking = true ↔ r.severity = RegressionSeverity.critical)) ∧
    (0 < baselineTime hist →
      15 < (current.totalBuildTime - baselineTime hist) / baselineTime hist * 100 →
      ∃ r ∈ BuildHealthScoring.detectRegressions current hist,
        r.type = RegressionType.buildTime) ∧
    (∀ cb, current.bundleAnalysis = some cb →
      (jsPercentageChange cb.totalSize (baselineSize hist)).gtQ 10 = true →
      ∃ r ∈ BuildHealthScoring.detectRegressions current hist,
        r.type = RegressionType.bundleSize) ∧
    (0 < baselineMemory hist →
      20 < (current.peakMemoryUsage - baselineMemory hist) / baselineMemory hist * 100 →
      ∃ r ∈ BuildHealthScoring.detectRegressions current hist,
        r.type = RegressionType.memory) := by
  have hpos : 0 < hist.length := List.length_pos.mpr hne
  have hlen0 : ¬ hist.length = 0 := by omega
  have hwlen : ¬ (jsSliceLast 10 hist).length = 0 := by
    simp only [jsSliceLast, List.length_drop]
    omega
  obtain ⟨hbT, hbS, hbM⟩ := calculateBaseline_spec (jsSliceLast 10 hist) hwlen
  have hT : (BuildHealthScoring.calculateBaseline (jsSliceLast 10 hist)).totalBuildTime =
      baselineTime hist := hbT
  have hS : (BuildHealthScoring.calculateBaseline (jsSliceLast 10 hist)).bundleAnalysis =
      some ⟨baselineSize hist⟩ := hbS
  have hM : (BuildHealthScoring.calculateBaseline (jsSliceLast 10 hist)).peakMemoryUsage =
      baselineMemory hist := hbM
  have hsub : ∀ d ∈ jsSliceLast 10 hist, d ∈ hist :=
    fun d hd => (List.drop_suffix _ _).subset hd
  have hTnn : 0 ≤ baselineTime hist := by
    apply div_nonneg
    · apply List.sum_nonneg
      intro x hx
      obtain ⟨d, hd, rfl⟩ := List.mem_map.mp hx
      exact (hnn d (hsub d hd)).1
    · positivity
  have hSnn : 0 ≤ baselineSize hist := by
    apply div_nonneg
    · apply List.sum_nonneg
      intro x hx
      obtain ⟨d, hd, rfl⟩ := List.mem_map.mp hx
      rcases hba : d.metrics.bundleAnalysis with _ | ba
      · simp [hba]
      · simpa [hba] using (hnn d (hsub d hd)).2.2 ba hba
    · positivity
  have hMnn : 0 ≤ baselineMemory hist := by
    apply div_nonneg
    · apply List.sum_nonneg
      intro x hx
      obtain ⟨d, hd, rfl⟩ := List.mem_map.mp hx
      exact (hnn d (hsub d hd)).2.1
    · positivity
  refine ⟨?_, ?_, ?_, ?_, ?_, ?_⟩
  · simp only [recentWindow, jsSliceLast, List.length_drop]
    omega
  · exact List.drop_suffix _ _
  · intro r hr
    simp only [BuildHealthScoring.detectRegressions] at hr
    rw [if_neg hlen0, hT, hS, hM] at hr
    simp only [List.mem_append, Option.mem_toList, Option.mem_def] at hr
    rcases hr with (hr1 | hr2) | hr3
    · split_ifs at hr1 with hne0
      obtain ⟨hty, hcv, hpv, hpc, hgt, hblt, hposf, hzerof, hmin, hmaj, hcrit, hblk⟩ :=
        checkRegression_eq_some (by norm_num) hTnn hr1
      refine ⟨Or.inl hty, fun _ => ⟨hpv, hcv⟩,
        fun hco => absurd (hty.symm.trans hco) (by decide),
        fun hco => absurd (hty.symm.trans hco) (by decide),
        by rw [hpv]; exact hTnn,
        by rw [hpv, hcv]; exact hblt,
        by rw [hcv, hpv]; exact hpc,
        by rw [hpv, hcv]; exact hposf,
        by rw [hpv]; exact hzerof,
        by rw [hty]; simpa [regressionThreshold] using hgt,
        by rw [hty]; simpa [regressionThreshold] using hmin,
        by rw [hty]; simpa [regressionThreshold] using hmaj,
        by rw [hty]; simpa [regressionThreshold] using hcrit,
        hblk⟩
    · rcases hcb : current.bundleAnalysis with _ | cb
      · rw [hcb] at hr2
        simp at hr2
      · rw [hcb] at hr2
        dsimp only at hr2
        obtain ⟨hty, hcv, hpv, hpc, hgt, hblt, hposf, hzerof, hmin, hmaj, hcrit, hblk⟩ :=
          checkRegression_eq_some (by norm_num) hSnn hr2
        refine ⟨Or.inr (Or.inl hty),
          fun hco => absurd (hty.symm.trans hco) (by decide),
          fun _ => ⟨hpv, cb, rfl, hcv⟩,
          fun hco => absurd (hty.symm.trans hco) (by decide),
          by rw [hpv]; exact hSnn,
          by rw [hpv, hcv]; exact hblt,
          by rw [hcv, hpv]; exact hpc,
          by rw [hpv, hcv]; exact hposf,
          by rw [hpv]; exact hzerof,
          by rw [hty]; simpa [regressionThreshold] using hgt,
          by rw [hty]; simpa [regressionThreshold] using hmin,
          by rw [hty]; simpa [regressionThreshold] using hmaj,
          by rw [hty]; simpa [regressionThreshold] using hcrit,
          hblk⟩
    · split_ifs at hr3 with hne0
      obtain ⟨hty, hcv, hpv, hpc, hgt, hblt, hposf, hzerof, hmin, hmaj, hcrit, hblk⟩ :=
        checkRegression_eq_some (by norm_num) hMnn hr3
      refine ⟨Or.inr (Or.inr hty),
        fun hco => absurd (hty.symm.trans hco) (by decide),
        fun hco => absurd (hty.symm.trans hco) (by decide),
        fun _ => ⟨hpv, hcv⟩,
        by rw [hpv]; exact hMnn,
        by rw [hpv, hcv]; exact hblt,
        by rw [hcv, hpv]; exact hpc,
        by rw [hpv, hcv]; exact hposf,
        by rw [hpv]; exact hzerof,
        by rw [hty]; simpa [regressionThreshold] using hgt,
        by rw [hty]; simpa [regressionThreshold] using hmin,
        by rw [hty]; simpa [regressionThreshold] using hmaj,
        by rw [hty]; simpa [regressionThreshold] using hcrit,
        hblk⟩
  · intro hbt hpct
    simp only [BuildHealthScoring.detectRegressions]
    rw [if_neg hlen0, hT, hS, hM]
    have hgt : (jsPercentageChange current.totalBuildTime (baselineTime hist)).gtQ
        15 = true := by
      rw [jsPercentageChange_of_ne (ne_of_gt hbt)]
      simpa [JsNum.gtQ] using hpct
    obtain ⟨r, hrsome, hrty⟩ :=
      checkRegression_isSome current.totalBuildTime (baselineTime hist) 15
        RegressionType.buildTime hgt
    refine ⟨r, List.mem_append.mpr (Or.inl (List.mem_append.mpr (Or.inl ?_))), hrty⟩
    rw [if_pos (ne_of_gt hbt), hrsome]
    simp
  · intro cb hcbeq hgt
    simp only [BuildHealthScoring.detectRegressions]
    rw [if_neg hlen0, hT, hS, hM, hcbeq]
    obtain ⟨r, hrsome, hrty⟩ :=
      checkRegression_isSome cb.totalSize (baselineSize hist) 10
        RegressionType.bundleSize hgt
    refine ⟨r, List.mem_append.mpr (Or.inl (List.mem_append.mpr (Or.inr ?_))), hrty⟩
    dsimp only
    rw [hrsome]
    simp
  · intro hbm hpct
    simp only [BuildHealthScoring.detectRegressions]
    rw [if_neg hlen0, hT, hS, hM]
    have hgt : (jsPercentageChange current.peakMemoryUsage (baselineMemory hist)).gtQ
        20 = true := by
      rw [jsPercentageChange_of_ne (ne_of_gt hbm)]
      simpa [JsNum.gtQ] using hpct
    obtain ⟨r, hrsome, hrty⟩ :=
      checkRegression_isSome current.peakMemoryUsage (baselineMemory hist) 20
        RegressionType.memory hgt
    refine ⟨r, List.mem_append.mpr (Or.inr ?_), hrty⟩
    rw [if_pos (ne_of_gt hbm), hrsome]
    simp

/-- Witness for C3: against a single historical build with build time 100, a
current build time of 200 (a 100% increase over the baseline of 100) yields a
reported build-time regression. -/
theorem C3_witness :
    ∃ r ∈ BuildHealthScoring.detectRegressions regressedMetrics [mkHistEntry 100 100 100],
      r.type = RegressionType.buildTime := by
  refine (C3_detectRegressions_characterized regressedMetrics [mkHistEntry 100 100 100]
    (by simp) ?_).2.2.2.1 ?_ ?_
  · intro d hd
    rw [List.mem_singleton] at hd
    subst hd
    refine ⟨by norm_num [mkHistEntry], by norm_num [mkHistEntry], ?_⟩
    intro ba hba
    simp only [mkHistEntry] at hba
    obtain rfl := (Option.some.inj hba).symm
    norm_num
  · have hb : baselineTime [mkHistEntry 100 100 100] = 100 := by
      norm_num [baselineTime, recentWindow, jsSliceLast, mkHistEntry]
    rw [hb]
    norm_num
  · have hb : baselineTime [mkHistEntry 100 100 100] = 100 := by
      norm_num [baselineTime, recentWindow, jsSliceLast, mkHistEntry]
    rw [hb]
    norm_num [regressedMetrics]
